import Mathlib

/-
Verification development for the terraform-provider-berth repository.

The repository consists of an HTTP client (internal/client/client.go)
wrapping a remote administrative REST API, and two Terraform resources
(RoleResource, RolePermissionResource) built on the Terraform plugin
framework.  We embed the client and the resource handlers shallowly:

* the remote server is a `Remote` value (roles, role permissions,
  permission catalogue, id counters);
* every `Execute()` HTTP round trip of the Go client is one `httpCall`,
  which appends the issued operation to a trace and consumes one index
  of a failure schedule (`failSet`), so that claims about operation
  ordering, retries and mid-loop failures can be stated over traces;
* each Go client method and each resource handler becomes a Lean
  function threading an `Env` (remote state + call counter + trace +
  failure schedule) and returning `Except`/`HandlerResult` values that
  mirror the Go returns, diagnostics and early returns line by line.
-/

set_option autoImplicit false

namespace Berth

/-- Mirrors `client.Role` (client.go). `uint` ids are modelled as `Nat`. -/
structure Role where
  id : Nat
  name : String
  description : String
  isAdmin : Bool
deriving DecidableEq, Repr

/-- Mirrors `client.Permission` (client.go). -/
structure Permission where
  id : Nat
  name : String
  resource : String
  action : String
  description : String
deriving DecidableEq, Repr

/-- Mirrors `client.RolePermission` (client.go). -/
structure RolePermission where
  id : Nat
  serverID : Nat
  permissionID : Nat
  stackPattern : String
deriving DecidableEq, Repr

/-- One REST operation issued by the client, i.e. one Go `Execute()` call. -/
inductive ApiOp
  | listRoles
  | createRole (name description : String)
  | updateRole (id : Nat) (name description : String)
  | deleteRole (id : Nat)
  | listRolePermissions (roleID : Nat)
  | createRolePermission (roleID serverID permissionID : Nat) (stackPattern : String)
  | deleteRolePermission (roleID permissionID : Nat)
  | listPermissions
deriving DecidableEq, Repr

/-- Is the operation a role-permission delete? -/
def ApiOp.isDeleteRP : ApiOp → Bool
  | .deleteRolePermission _ _ => true
  | _ => false

/-- Is the operation a role-permission create? -/
def ApiOp.isCreateRP : ApiOp → Bool
  | .createRolePermission _ _ _ _ => true
  | _ => false

/-- Is the operation a role-permission delete or create (the operations the
reconciliation claims talk about)? -/
def ApiOp.isReconOp : ApiOp → Bool
  | .deleteRolePermission _ _ => true
  | .createRolePermission _ _ _ _ => true
  | _ => false

/-- The state of the remote Berth server: roles, role permissions (tagged by
the owning role id), the permission catalogue, and the ids the server will
assign to the next created role / role permission. -/
structure Remote where
  roles : List Role
  rolePerms : List (Nat × RolePermission)
  catalog : List Permission
  nextRoleID : Nat
  nextRolePermID : Nat
deriving DecidableEq, Repr

/-- The permission rules the server holds for a role, in stored order. -/
def permsOfRole (roleID : Nat) (remote : Remote) : List RolePermission :=
  (remote.rolePerms.filter (fun e => e.1 == roleID)).map (fun e => e.2)

/-- Execution environment of one handler invocation: remote state, the number
of HTTP calls made so far, the trace of issued operations, and a failure
schedule mapping call indices to the error message the transport produces
there (an empty schedule means every HTTP call succeeds). -/
structure Env where
  remote : Remote
  calls : Nat
  trace : List ApiOp
  failSet : List (Nat × String)
deriving DecidableEq, Repr

/-- One HTTP round trip (`Execute()` in the Go client): always consumes one
call index and records the operation; fails iff the schedule names this
index. -/
def httpCall (op : ApiOp) (env : Env) : Except String Unit × Env :=
  let env' : Env :=
    { env with calls := env.calls + 1, trace := env.trace ++ [op] }
  match env.failSet.lookup env.calls with
  | some msg => (.error msg, env')
  | none => (.ok (), env')

/-- Go `uint(x)` applied to an `int64` value: reduction mod 2^64. -/
def uintOf (i : Int) : Nat :=
  (i % ((2 : Int) ^ 64)).toNat

namespace Client

/-- Mirrors `Client.ListRoles` (client.go lines 67-84). -/
def ListRoles (env : Env) : Except String (List Role) × Env :=
  match httpCall .listRoles env with
  | (.error e, env') => (.error ("failed to list roles: " ++ e), env')
  | (.ok _, env') => (.ok env'.remote.roles, env')

/-- Mirrors `Client.GetRole` (client.go lines 86-99): lists all roles and
scans for the first with the wanted id. -/
def GetRole (id : Nat) (env : Env) : Except String Role × Env :=
  match ListRoles env with
  | (.error e, env') => (.error e, env')
  | (.ok roles, env') =>
    match roles.find? (fun r => r.id == id) with
    | some role => (.ok role, env')
    | none => (.error "role not found", env')

/-- Mirrors `Client.CreateRole` (client.go lines 101-115).  The server
assigns `nextRoleID`; the client returns the role echoed in the response. -/
def CreateRole (name description : String) (env : Env) : Except String Role × Env :=
  match httpCall (.createRole name description) env with
  | (.error e, env') => (.error ("failed to create role: " ++ e), env')
  | (.ok _, env') =>
    let role : Role :=
      { id := env'.remote.nextRoleID, name := name, description := description
        isAdmin := false }
    (.ok role,
     { env' with
        remote :=
          { env'.remote with
             roles := env'.remote.roles ++ [role]
             nextRoleID := env'.remote.nextRoleID + 1 } })

/-- Mirrors `Client.UpdateRole` (client.go lines 117-131). -/
def UpdateRole (id : Nat) (name description : String) (env : Env) :
    Except String Role × Env :=
  match httpCall (.updateRole id name description) env with
  | (.error e, env') => (.error ("failed to update role: " ++ e), env')
  | (.ok _, env') =>
    let isAdmin :=
      (((env'.remote.roles.find? (fun r => r.id == id)).map (fun r => r.isAdmin))).getD false
    (.ok { id := id, name := name, description := description, isAdmin := isAdmin },
     { env' with
        remote :=
          { env'.remote with
             roles := env'.remote.roles.map (fun r =>
               if r.id == id then { r with name := name, description := description } else r) } })

/-- Mirrors `Client.DeleteRole` (client.go lines 133-139). -/
def DeleteRole (id : Nat) (env : Env) : Except String Unit × Env :=
  match httpCall (.deleteRole id) env with
  | (.error e, env') => (.error ("failed to delete role: " ++ e), env')
  | (.ok _, env') =>
    (.ok (),
     { env' with
        remote :=
          { env'.remote with roles := env'.remote.roles.filter (fun r => r.id != id) } })

/-- Mirrors `Client.ListRolePermissions` (client.go lines 141-169): returns
the permission rules of the role together with the permission catalogue. -/
def ListRolePermissions (roleID : Nat) (env : Env) :
    Except String (List RolePermission × List Permission) × Env :=
  match httpCall (.listRolePermissions roleID) env with
  | (.error e, env') => (.error ("failed to list role permissions: " ++ e), env')
  | (.ok _, env') => (.ok (permsOfRole roleID env'.remote, env'.remote.catalog), env')

/-- Mirrors `Client.GetRolePermission` (client.go lines 171-184). -/
def GetRolePermission (roleID permissionID : Nat) (env : Env) :
    Except String RolePermission × Env :=
  match ListRolePermissions roleID env with
  | (.error e, env') => (.error e, env')
  | (.ok (perms, _), env') =>
    match perms.find? (fun p => p.id == permissionID) with
    | some perm => (.ok perm, env')
    | none => (.error "permission not found", env')

/-- Mirrors `Client.CreateRolePermission` (client.go lines 186-199).  The
server stores the rule under `nextRolePermID`; the Go client does NOT read
the response body and returns a `RolePermission` whose `ID` field is left at
its zero value `0`. -/
def CreateRolePermission (roleID serverID permissionID : Nat) (stackPattern : String)
    (env : Env) : Except String RolePermission × Env :=
  match httpCall (.createRolePermission roleID serverID permissionID stackPattern) env with
  | (.error e, env') => (.error ("failed to create role permission: " ++ e), env')
  | (.ok _, env') =>
    (.ok { id := 0, serverID := serverID, permissionID := permissionID
           stackPattern := stackPattern },
     { env' with
        remote :=
          { env'.remote with
             rolePerms := env'.remote.rolePerms ++
               [(roleID,
                 { id := env'.remote.nextRolePermID, serverID := serverID
                   permissionID := permissionID, stackPattern := stackPattern })]
             nextRolePermID := env'.remote.nextRolePermID + 1 } })

/-- Mirrors `Client.DeleteRolePermission` (client.go lines 201-207). -/
def DeleteRolePermission (roleID permissionID : Nat) (env : Env) :
    Except String Unit × Env :=
  match httpCall (.deleteRolePermission roleID permissionID) env with
  | (.error e, env') => (.error ("failed to delete role permission: " ++ e), env')
  | (.ok _, env') =>
    (.ok (),
     { env' with
        remote :=
          { env'.remote with
             rolePerms := env'.remote.rolePerms.filter (fun e =>
               !(e.1 == roleID && e.2.id == permissionID)) } })

/-- Mirrors `Client.ListPermissions` (client.go lines 209-227). -/
def ListPermissions (env : Env) : Except String (List Permission) × Env :=
  match httpCall .listPermissions env with
  | (.error e, env') => (.error ("failed to list permissions: " ++ e), env')
  | (.ok _, env') => (.ok env'.remote.catalog, env')

/-- Mirrors `Client.GetPermissionByName` (client.go lines 229-242). -/
def GetPermissionByName (name : String) (env : Env) : Except String Permission × Env :=
  match ListPermissions env with
  | (.error e, env') => (.error e, env')
  | (.ok permissions, env') =>
    match permissions.find? (fun p => p.name == name) with
    | some perm => (.ok perm, env')
    | none => (.error ("permission '" ++ name ++ "' not found"), env')

end Client

/-- Terraform framework `types.String`: null, unknown, or a known value. -/
inductive TFString
  | null
  | unknown
  | value (s : String)
deriving DecidableEq, Repr

/-- `types.String.ValueString()`: the known value, `""` for null/unknown. -/
def TFString.valueString : TFString → String
  | .value s => s
  | _ => ""

/-- `types.String.IsNull()`. -/
def TFString.isNull : TFString → Bool
  | .null => true
  | _ => false

/-- `types.String.IsUnknown()`. -/
def TFString.isUnknown : TFString → Bool
  | .unknown => true
  | _ => false

/-- Terraform framework `types.Int64`. -/
inductive TFInt64
  | null
  | unknown
  | value (i : Int)
deriving DecidableEq, Repr

/-- `types.Int64.ValueInt64()`: the known value, `0` for null/unknown. -/
def TFInt64.valueInt64 : TFInt64 → Int
  | .value i => i
  | _ => 0

/-- Decidable equality for `Except`, used to evaluate concrete runs. -/
instance exceptDecEq {ε α : Type} [DecidableEq ε] [DecidableEq α] :
    DecidableEq (Except ε α) := fun x y =>
  match x, y with
  | .error a, .error b =>
    if h : a = b then isTrue (by rw [h]) else isFalse (fun hh => by cases hh; exact h rfl)
  | .error _, .ok _ => isFalse (fun hh => by cases hh)
  | .ok _, .error _ => isFalse (fun hh => by cases hh)
  | .ok a, .ok b =>
    if h : a = b then isTrue (by rw [h]) else isFalse (fun hh => by cases hh; exact h rfl)

/-- Go `strconv.ParseUint(s, 10, 64)`: decimal digits only, no sign,
64-bit range check.  The character list of the string is processed so that
concrete runs evaluate inside the kernel. -/
def parseUint64 (s : String) : Except String Nat :=
  if s.data.length > 0 && s.data.all Char.isDigit then
    let v := s.data.foldl (fun a c => a * 10 + (c.toNat - 48)) 0
    if v < 2 ^ 64 then .ok v
    else .error ("strconv.ParseUint: parsing " ++ s ++ ": value out of range")
  else .error ("strconv.ParseUint: parsing " ++ s ++ ": invalid syntax")

/-- Go `strconv.ParseInt(s, 10, 64)`: optional sign, decimal digits,
64-bit range check. -/
def parseInt64 (s : String) : Except String Int :=
  let sign : Int := if s.data.take 1 = ['-'] then -1 else 1
  let digits :=
    if s.data.take 1 = ['-'] || s.data.take 1 = ['+'] then s.data.drop 1 else s.data
  if digits.length > 0 && digits.all Char.isDigit then
    let v : Int := sign * ((digits.foldl (fun a c => a * 10 + (c.toNat - 48)) 0 : Nat) : Int)
    if -(2 ^ 63) ≤ v && v < 2 ^ 63 then .ok v
    else .error ("strconv.ParseInt: parsing " ++ s ++ ": value out of range")
  else .error ("strconv.ParseInt: parsing " ++ s ++ ": invalid syntax")

/-- Go `strings.Split(s, ":")`, over the character list so that concrete
runs evaluate inside the kernel. -/
def splitColon (s : String) : List String :=
  (s.data.splitOn ':').map (fun cs => String.mk cs)

/-- Mirrors `RolePermissionInline` of the role resource. -/
structure RolePermissionInline where
  id : TFString
  serverID : TFInt64
  permissionName : TFString
  stackPattern : TFString
deriving DecidableEq, Repr

/-- Mirrors `PermissionDefinition` of the role resource. -/
structure PermissionDefinition where
  name : TFString
  pattern : TFString
deriving DecidableEq, Repr

/-- Mirrors `PermissionSet` of the role resource. -/
structure PermissionSet where
  serverIDs : List TFInt64
  permissions : List PermissionDefinition
deriving DecidableEq, Repr

/-- Mirrors `RoleResourceModel`. -/
structure RoleResourceModel where
  id : TFString
  name : TFString
  description : TFString
  permissions : List RolePermissionInline
  permissionSets : List PermissionSet
deriving DecidableEq, Repr

/-- Mirrors `RolePermissionResourceModel`. -/
structure RolePermissionResourceModel where
  id : TFString
  roleID : TFInt64
  serverID : TFInt64
  permissionName : TFString
  stackPattern : TFString
deriving DecidableEq, Repr

/-- A Terraform diagnostic: `AddError(summary, detail)`. -/
abbrev Diag := String × String

/-- Outcome of one resource handler invocation: the diagnostics it added and
the state it wrote with `resp.State.Set` (`none` when the handler returned
before reaching `State.Set`; for Delete, `some ()` marks a completed run
after which the framework drops the state). -/
structure HandlerResult (σ : Type) where
  diags : List Diag
  state : Option σ
deriving DecidableEq, Repr

namespace RoleResource

/-- Innermost loop of the permission-set reconciliation shared verbatim by
Create (client.go lines 410-436) and Update (lines 567-593): for one server
id, create every permission of the set, defaulting the pattern to `"*"`. -/
def permSetPermsLoop (roleID serverID : Nat) (pds : List PermissionDefinition)
    (env : Env) : Except Diag Unit × Env :=
  match pds with
  | [] => (.ok (), env)
  | pd :: rest =>
    let stackPattern :=
      if !pd.pattern.isNull && !pd.pattern.isUnknown then pd.pattern.valueString else "*"
    match Client.GetPermissionByName pd.name.valueString env with
    | (.error e, env1) => (.error ("Failed to find permission", e), env1)
    | (.ok permission, env1) =>
      match Client.CreateRolePermission roleID serverID permission.id stackPattern env1 with
      | (.error e, env2) =>
        (.error ("Failed to create role permission from permission set", e), env2)
      | (.ok _, env2) => permSetPermsLoop roleID serverID rest env2

/-- Middle loop: iterate the permission set over its server ids. -/
def permSetServersLoop (roleID : Nat) (pds : List PermissionDefinition)
    (sids : List TFInt64) (env : Env) : Except Diag Unit × Env :=
  match sids with
  | [] => (.ok (), env)
  | sid :: rest =>
    match permSetPermsLoop roleID (uintOf sid.valueInt64) pds env with
    | (.error d, env1) => (.error d, env1)
    | (.ok _, env1) => permSetServersLoop roleID pds rest env1

/-- Outer loop over the `permission_set` blocks. -/
def permSetsLoop (roleID : Nat) (sets : List PermissionSet) (env : Env) :
    Except Diag Unit × Env :=
  match sets with
  | [] => (.ok (), env)
  | ps :: rest =>
    match permSetServersLoop roleID ps.permissions ps.serverIDs env with
    | (.error d, env1) => (.error d, env1)
    | (.ok _, env1) => permSetsLoop roleID rest env1

/-- The inline-permissions loop shared verbatim by Create (client.go lines
438-474) and Update (lines 595-631): create each inline permission,
re-list the role's permissions and, when a matching entry is found, write
the discovered id and the effective stack pattern back into the element. -/
def inlinePermsLoop (roleID : Nat) (perms : List RolePermissionInline) (env : Env) :
    Except Diag (List RolePermissionInline) × Env :=
  match perms with
  | [] => (.ok [], env)
  | perm :: rest =>
    let stackPattern :=
      if !perm.stackPattern.isNull && !perm.stackPattern.isUnknown then
        perm.stackPattern.valueString
      else "*"
    match Client.GetPermissionByName perm.permissionName.valueString env with
    | (.error e, env1) => (.error ("Failed to find permission", e), env1)
    | (.ok permission, env1) =>
      match Client.CreateRolePermission roleID (uintOf perm.serverID.valueInt64)
          permission.id stackPattern env1 with
      | (.error e, env2) => (.error ("Failed to create role permission", e), env2)
      | (.ok createdPerm, env2) =>
        match Client.ListRolePermissions roleID env2 with
        | (.error e, env3) => (.error ("Failed to read created permission", e), env3)
        | (.ok (perms2, _), env3) =>
          let perm' :=
            match perms2.find? (fun p =>
                p.serverID == createdPerm.serverID && p.permissionID == permission.id &&
                p.stackPattern == stackPattern) with
            | some p =>
              { perm with id := .value (toString p.id), stackPattern := .value stackPattern }
            | none => perm
          match inlinePermsLoop roleID rest env3 with
          | (.error d, env4) => (.error d, env4)
          | (.ok rest', env4) => (.ok (perm' :: rest'), env4)

/-- The Update handler's delete loop (client.go lines 560-565). -/
def deleteLoop (roleID : Nat) (perms : List RolePermission) (env : Env) :
    Except Diag Unit × Env :=
  match perms with
  | [] => (.ok (), env)
  | p :: rest =>
    match Client.DeleteRolePermission roleID p.id env with
    | (.error e, env1) => (.error ("Failed to delete permission", e), env1)
    | (.ok _, env1) => deleteLoop roleID rest env1

/-- Mirrors `RoleResource.Create` (client.go lines 394-477). -/
def Create (plan : RoleResourceModel) (env : Env) :
    HandlerResult RoleResourceModel × Env :=
  match Client.CreateRole plan.name.valueString plan.description.valueString env with
  | (.error e, env1) => (⟨[("Failed to create role", e)], none⟩, env1)
  | (.ok role, env1) =>
    let data := { plan with id := TFString.value (toString role.id) }
    match permSetsLoop role.id data.permissionSets env1 with
    | (.error d, env2) => (⟨[d], none⟩, env2)
    | (.ok _, env2) =>
      match inlinePermsLoop role.id data.permissions env2 with
      | (.error d, env3) => (⟨[d], none⟩, env3)
      | (.ok perms', env3) => (⟨[], some { data with permissions := perms' }⟩, env3)

/-- Mirrors `RoleResource.Read` (client.go lines 479-527). -/
def Read (state : RoleResourceModel) (env : Env) :
    HandlerResult RoleResourceModel × Env :=
  match parseUint64 state.id.valueString with
  | .error e => (⟨[("Invalid role ID", e)], none⟩, env)
  | .ok id =>
    match Client.GetRole id env with
    | (.error e, env1) => (⟨[("Failed to read role", e)], none⟩, env1)
    | (.ok role, env1) =>
      let data :=
        { state with name := TFString.value role.name
                     description := TFString.value role.description }
      if data.permissions.length > 0 then
        match Client.ListRolePermissions id env1 with
        | (.error e, env2) => (⟨[("Failed to read role permissions", e)], none⟩, env2)
        | (.ok (perms, allPermissions), env2) =>
          let permName := fun pid =>
            (((allPermissions.reverse.find? (fun p => p.id == pid)).map
              (fun p => p.name))).getD ""
          let updatedPerms := perms.map (fun perm =>
            { id := TFString.value (toString perm.id)
              serverID := TFInt64.value (Int.ofNat perm.serverID)
              permissionName := TFString.value (permName perm.permissionID)
              stackPattern := TFString.value perm.stackPattern : RolePermissionInline })
          (⟨[], some { data with permissions := updatedPerms }⟩, env2)
      else
        (⟨[], some data⟩, env1)

/-- Mirrors `RoleResource.Update` (client.go lines 529-635). -/
def Update (plan state : RoleResourceModel) (env : Env) :
    HandlerResult RoleResourceModel × Env :=
  match parseUint64 plan.id.valueString with
  | .error e => (⟨[("Invalid role ID", e)], none⟩, env)
  | .ok roleID =>
    match Client.UpdateRole roleID plan.name.valueString plan.description.valueString env with
    | (.error e, env1) => (⟨[("Failed to update role", e)], none⟩, env1)
    | (.ok _, env1) =>
      if plan.permissions.length > 0 || state.permissions.length > 0 ||
          plan.permissionSets.length > 0 || state.permissionSets.length > 0 then
        match Client.ListRolePermissions roleID env1 with
        | (.error e, env2) => (⟨[("Failed to read existing permissions", e)], none⟩, env2)
        | (.ok (existingPerms, _), env2) =>
          match deleteLoop roleID existingPerms env2 with
          | (.error d, env3) => (⟨[d], none⟩, env3)
          | (.ok _, env3) =>
            match permSetsLoop roleID plan.permissionSets env3 with
            | (.error d, env4) => (⟨[d], none⟩, env4)
            | (.ok _, env4) =>
              match inlinePermsLoop roleID plan.permissions env4 with
              | (.error d, env5) => (⟨[d], none⟩, env5)
              | (.ok perms', env5) =>
                (⟨[], some { plan with permissions := perms' }⟩, env5)
      else
        (⟨[], some plan⟩, env1)

/-- Mirrors `RoleResource.Delete` (client.go lines 637-655). -/
def Delete (state : RoleResourceModel) (env : Env) : HandlerResult Unit × Env :=
  match parseUint64 state.id.valueString with
  | .error e => (⟨[("Invalid role ID", e)], none⟩, env)
  | .ok id =>
    match Client.DeleteRole id env with
    | (.error e, env1) => (⟨[("Failed to delete role", e)], none⟩, env1)
    | (.ok _, env1) => (⟨[], some ()⟩, env1)

/-- Mirrors `RoleResource.ImportState`: a plain passthrough of the import id
into the `id` attribute, with no parsing. -/
def ImportState (importID : String) : List Diag × Option String :=
  ([], some importID)

end RoleResource

namespace RolePermissionResource

/-- Mirrors `RolePermissionResource.Create` (part_000 lines 181-234).  Note:
the default for a null `stack_pattern` is `"*"` (no IsUnknown check here),
and after the remote create the handler re-lists and looks the new rule up
by (server id, permission id, pattern), treating a found id of `0` the same
as not found. -/
def Create (plan : RolePermissionResourceModel) (env : Env) :
    HandlerResult RolePermissionResourceModel × Env :=
  match Client.GetPermissionByName plan.permissionName.valueString env with
  | (.error e, env1) => (⟨[("Failed to find permission", e)], none⟩, env1)
  | (.ok permission, env1) =>
    let stackPattern :=
      if !plan.stackPattern.isNull then plan.stackPattern.valueString else "*"
    match Client.CreateRolePermission (uintOf plan.roleID.valueInt64)
        (uintOf plan.serverID.valueInt64) permission.id stackPattern env1 with
    | (.error e, env2) => (⟨[("Failed to create role permission", e)], none⟩, env2)
    | (.ok perm, env2) =>
      match Client.ListRolePermissions (uintOf plan.roleID.valueInt64) env2 with
      | (.error e, env3) => (⟨[("Failed to read created permission", e)], none⟩, env3)
      | (.ok (perms, _), env3) =>
        let foundID :=
          (((perms.find? (fun p =>
              p.serverID == perm.serverID && p.permissionID == permission.id &&
              p.stackPattern == stackPattern)).map (fun p => p.id))).getD 0
        if foundID == 0 then
          (⟨[("Failed to find created permission",
              "Permission was created but could not be found")], none⟩, env3)
        else
          (⟨[], some { plan with id := TFString.value (toString foundID)
                                 stackPattern := TFString.value stackPattern }⟩, env3)

/-- Mirrors `RolePermissionResource.Read` (part_000 lines 236-260). -/
def Read (state : RolePermissionResourceModel) (env : Env) :
    HandlerResult RolePermissionResourceModel × Env :=
  match parseUint64 state.id.valueString with
  | .error e => (⟨[("Invalid permission ID", e)], none⟩, env)
  | .ok id =>
    match Client.GetRolePermission (uintOf state.roleID.valueInt64) id env with
    | (.error e, env1) => (⟨[("Failed to read role permission", e)], none⟩, env1)
    | (.ok perm, env1) =>
      (⟨[], some { state with serverID := TFInt64.value (Int.ofNat perm.serverID)
                              stackPattern := TFString.value perm.stackPattern }⟩, env1)

/-- Mirrors `RolePermissionResource.Update` (part_000 lines 262-267): it
unconditionally adds the "Update not supported" error and touches neither
the remote API nor the state. -/
def Update (env : Env) : HandlerResult RolePermissionResourceModel × Env :=
  (⟨[("Update not supported",
      "Role permissions cannot be updated. Please delete and recreate the resource.")],
    none⟩, env)

/-- Mirrors `RolePermissionResource.Delete` (part_000 lines 269-287). -/
def Delete (state : RolePermissionResourceModel) (env : Env) :
    HandlerResult Unit × Env :=
  match parseUint64 state.id.valueString with
  | .error e => (⟨[("Invalid permission ID", e)], none⟩, env)
  | .ok id =>
    match Client.DeleteRolePermission (uintOf state.roleID.valueInt64) id env with
    | (.error e, env1) => (⟨[("Failed to delete role permission", e)], none⟩, env1)
    | (.ok _, env1) => (⟨[], some ()⟩, env1)

/-- Mirrors `RolePermissionResource.ImportState` (part_000 lines 289-307):
split the import id on `:`, require exactly two parts, parse the first as
the role id, and pass the second through as the `id` attribute. -/
def ImportState (importID : String) : List Diag × Option (String × Int) :=
  match splitColon importID with
  | [p0, p1] =>
    match parseInt64 p0 with
    | .error e => ([("Invalid role ID", e)], none)
    | .ok roleID => ([], some (p1, roleID))
  | _ =>
    ([("Invalid import ID", "Import ID must be in format 'role_id:permission_id'")], none)

end RolePermissionResource

/-- The environment after one HTTP round trip, remote state unchanged. -/
def bump (env : Env) (op : ApiOp) : Env :=
  { env with calls := env.calls + 1, trace := env.trace ++ [op] }

@[simp] theorem bump_remote (env : Env) (op : ApiOp) : (bump env op).remote = env.remote := rfl

@[simp] theorem bump_calls (env : Env) (op : ApiOp) : (bump env op).calls = env.calls + 1 := rfl

@[simp] theorem bump_trace (env : Env) (op : ApiOp) :
    (bump env op).trace = env.trace ++ [op] := rfl

@[simp] theorem bump_failSet (env : Env) (op : ApiOp) :
    (bump env op).failSet = env.failSet := rfl

theorem httpCall_nofail (op : ApiOp) (env : Env) (h : env.failSet = []) :
    httpCall op env = (.ok (), bump env op) := by
  simp [httpCall, h, bump]

theorem httpCall_fail (op : ApiOp) (env : Env) (msg : String)
    (h : env.failSet.lookup env.calls = some msg) :
    httpCall op env = (.error msg, bump env op) := by
  simp [httpCall, h, bump]

namespace Client

theorem ListRoles_nofail (env : Env) (h : env.failSet = []) :
    ListRoles env = (.ok env.remote.roles, bump env .listRoles) := by
  simp [ListRoles, httpCall_nofail _ _ h]

theorem GetRole_eq (id : Nat) (env : Env) (h : env.failSet = []) :
    GetRole id env =
      (match env.remote.roles.find? (fun r => r.id == id) with
       | some role => .ok role
       | none => .error "role not found", bump env .listRoles) := by
  simp only [GetRole, ListRoles_nofail env h, bump_remote]
  split <;> simp_all

theorem CreateRole_nofail (name description : String) (env : Env) (h : env.failSet = []) :
    CreateRole name description env =
      (.ok { id := env.remote.nextRoleID, name := name, description := description
             isAdmin := false },
       { bump env (.createRole name description) with
          remote :=
            { env.remote with
               roles := env.remote.roles ++
                 [{ id := env.remote.nextRoleID, name := name, description := description
                    isAdmin := false }]
               nextRoleID := env.remote.nextRoleID + 1 } }) := by
  simp [CreateRole, httpCall_nofail _ _ h]

theorem UpdateRole_nofail (id : Nat) (name description : String) (env : Env)
    (h : env.failSet = []) :
    UpdateRole id name description env =
      (.ok { id := id, name := name, description := description
             isAdmin := (((env.remote.roles.find? (fun r => r.id == id)).map
               (fun r => r.isAdmin))).getD false },
       { bump env (.updateRole id name description) with
          remote :=
            { env.remote with
               roles := env.remote.roles.map (fun r =>
                 if r.id == id then { r with name := name, description := description }
                 else r) } }) := by
  simp [UpdateRole, httpCall_nofail _ _ h]

theorem DeleteRole_nofail (id : Nat) (env : Env) (h : env.failSet = []) :
    DeleteRole id env =
      (.ok (),
       { bump env (.deleteRole id) with
          remote :=
            { env.remote with roles := env.remote.roles.filter (fun r => r.id != id) } }) := by
  simp [DeleteRole, httpCall_nofail _ _ h]

theorem ListRolePermissions_nofail (roleID : Nat) (env : Env) (h : env.failSet = []) :
    ListRolePermissions roleID env =
      (.ok (permsOfRole roleID env.remote, env.remote.catalog),
       bump env (.listRolePermissions roleID)) := by
  simp [ListRolePermissions, httpCall_nofail _ _ h]

theorem GetRolePermission_eq (roleID permissionID : Nat) (env : Env) (h : env.failSet = []) :
    GetRolePermission roleID permissionID env =
      (match (permsOfRole roleID env.remote).find? (fun p => p.id == permissionID) with
       | some perm => .ok perm
       | none => .error "permission not found", bump env (.listRolePermissions roleID)) := by
  simp only [GetRolePermission, ListRolePermissions_nofail roleID env h]
  split <;> simp_all

theorem CreateRolePermission_nofail (roleID serverID permissionID : Nat)
    (stackPattern : String) (env : Env) (h : env.failSet = []) :
    CreateRolePermission roleID serverID permissionID stackPattern env =
      (.ok { id := 0, serverID := serverID, permissionID := permissionID
             stackPattern := stackPattern },
       { bump env (.createRolePermission roleID serverID permissionID stackPattern) with
          remote :=
            { env.remote with
               rolePerms := env.remote.rolePerms ++
                 [(roleID,
                   { id := env.remote.nextRolePermID, serverID := serverID
                     permissionID := permissionID, stackPattern := stackPattern })]
               nextRolePermID := env.remote.nextRolePermID + 1 } }) := by
  simp [CreateRolePermission, httpCall_nofail _ _ h]

theorem DeleteRolePermission_nofail (roleID permissionID : Nat) (env : Env)
    (h : env.failSet = []) :
    DeleteRolePermission roleID permissionID env =
      (.ok (),
       { bump env (.deleteRolePermission roleID permissionID) with
          remote :=
            { env.remote with
               rolePerms := env.remote.rolePerms.filter (fun e =>
                 !(e.1 == roleID && e.2.id == permissionID)) } }) := by
  simp [DeleteRolePermission, httpCall_nofail _ _ h]

theorem ListPermissions_nofail (env : Env) (h : env.failSet = []) :
    ListPermissions env = (.ok env.remote.catalog, bump env .listPermissions) := by
  simp [ListPermissions, httpCall_nofail _ _ h]

theorem GetPermissionByName_eq (name : String) (env : Env) (h : env.failSet = []) :
    GetPermissionByName name env =
      (match env.remote.catalog.find? (fun p => p.name == name) with
       | some perm => .ok perm
       | none => .error ("permission '" ++ name ++ "' not found"),
       bump env .listPermissions) := by
  simp only [GetPermissionByName, ListPermissions_nofail env h]
  split <;> simp_all

end Client

/-- The effective stack pattern of a `permission_set` entry. -/
def patternOfPD (pd : PermissionDefinition) : String :=
  if !pd.pattern.isNull && !pd.pattern.isUnknown then pd.pattern.valueString else "*"

/-- The effective stack pattern of an inline permission block. -/
def patternOfInline (p : RolePermissionInline) : String :=
  if !p.stackPattern.isNull && !p.stackPattern.isUnknown then
    p.stackPattern.valueString
  else "*"

/-- The id of the catalogue permission with the given name (`0` if absent). -/
def permIdIn (catalog : List Permission) (name : String) : Nat :=
  (((catalog.find? (fun p => p.name == name)).map (fun p => p.id))).getD 0

/-- Every entry of the definitions list resolves in the catalogue. -/
def namesOkPD (catalog : List Permission) (pds : List PermissionDefinition) : Bool :=
  pds.all (fun pd => (catalog.find? (fun p => p.name == pd.name.valueString)).isSome)

/-- Every entry of every permission set resolves in the catalogue. -/
def namesOkSets (catalog : List Permission) (sets : List PermissionSet) : Bool :=
  sets.all (fun ps => namesOkPD catalog ps.permissions)

/-- Every inline permission's name resolves in the catalogue. -/
def namesOkInline (catalog : List Permission) (perms : List RolePermissionInline) : Bool :=
  perms.all (fun p => (catalog.find? (fun q => q.name == p.permissionName.valueString)).isSome)

/-- Operations a failure-free run of `permSetPermsLoop` issues. -/
def permsOpsPS (catalog : List Permission) (roleID serverID : Nat) :
    List PermissionDefinition → List ApiOp
  | [] => []
  | pd :: rest =>
    .listPermissions ::
    .createRolePermission roleID serverID (permIdIn catalog pd.name.valueString)
      (patternOfPD pd) ::
    permsOpsPS catalog roleID serverID rest

/-- Operations a failure-free run of `permSetServersLoop` issues. -/
def serversOpsPS (catalog : List Permission) (roleID : Nat)
    (pds : List PermissionDefinition) : List TFInt64 → List ApiOp
  | [] => []
  | sid :: rest =>
    permsOpsPS catalog roleID (uintOf sid.valueInt64) pds ++
    serversOpsPS catalog roleID pds rest

/-- Operations a failure-free run of `permSetsLoop` issues. -/
def setsOps (catalog : List Permission) (roleID : Nat) : List PermissionSet → List ApiOp
  | [] => []
  | ps :: rest =>
    serversOpsPS catalog roleID ps.permissions ps.serverIDs ++ setsOps catalog roleID rest

/-- Operations a failure-free run of `inlinePermsLoop` issues. -/
def inlineOps (catalog : List Permission) (roleID : Nat) :
    List RolePermissionInline → List ApiOp
  | [] => []
  | p :: rest =>
    .listPermissions ::
    .createRolePermission roleID (uintOf p.serverID.valueInt64)
      (permIdIn catalog p.permissionName.valueString) (patternOfInline p) ::
    .listRolePermissions roleID ::
    inlineOps catalog roleID rest

/-- Creates of a failure-free `permSetPermsLoop` run (its recon subsequence). -/
def permsCreatesPS (catalog : List Permission) (roleID serverID : Nat) :
    List PermissionDefinition → List ApiOp
  | [] => []
  | pd :: rest =>
    .createRolePermission roleID serverID (permIdIn catalog pd.name.valueString)
      (patternOfPD pd) ::
    permsCreatesPS catalog roleID serverID rest

/-- Creates of a failure-free `permSetServersLoop` run. -/
def serversCreatesPS (catalog : List Permission) (roleID : Nat)
    (pds : List PermissionDefinition) : List TFInt64 → List ApiOp
  | [] => []
  | sid :: rest =>
    permsCreatesPS catalog roleID (uintOf sid.valueInt64) pds ++
    serversCreatesPS catalog roleID pds rest

/-- Creates of a failure-free `permSetsLoop` run. -/
def setsCreates (catalog : List Permission) (roleID : Nat) : List PermissionSet → List ApiOp
  | [] => []
  | ps :: rest =>
    serversCreatesPS catalog roleID ps.permissions ps.serverIDs ++
    setsCreates catalog roleID rest

/-- Creates of a failure-free `inlinePermsLoop` run. -/
def inlineCreates (catalog : List Permission) (roleID : Nat) :
    List RolePermissionInline → List ApiOp
  | [] => []
  | p :: rest =>
    .createRolePermission roleID (uintOf p.serverID.valueInt64)
      (permIdIn catalog p.permissionName.valueString) (patternOfInline p) ::
    inlineCreates catalog roleID rest

theorem httpCall_snd (op : ApiOp) (env : Env) : (httpCall op env).2 = bump env op := by
  simp only [httpCall, bump]
  split <;> rfl

namespace Client

theorem CreateRole_trace (name description : String) (env : Env) :
    (CreateRole name description env).2.trace = env.trace ++ [.createRole name description] := by
  simp only [CreateRole]
  rcases hh : httpCall (.createRole name description) env with ⟨res, env'⟩
  have henv' : env' = bump env (.createRole name description) := by
    have := httpCall_snd (.createRole name description) env
    rw [hh] at this
    exact this
  cases res <;> simp [henv', bump]

theorem GetPermissionByName_trace (name : String) (env : Env) :
    (GetPermissionByName name env).2.trace = env.trace ++ [.listPermissions] := by
  simp only [GetPermissionByName, ListPermissions]
  rcases hh : httpCall .listPermissions env with ⟨res, env'⟩
  have henv' : env' = bump env .listPermissions := by
    have := httpCall_snd .listPermissions env
    rw [hh] at this
    exact this
  cases res with
  | error e => simp [henv', bump]
  | ok v =>
    simp only []
    split <;> simp [henv', bump]

theorem CreateRolePermission_trace (roleID serverID permissionID : Nat)
    (stackPattern : String) (env : Env) :
    (CreateRolePermission roleID serverID permissionID stackPattern env).2.trace =
      env.trace ++ [.createRolePermission roleID serverID permissionID stackPattern] := by
  simp only [CreateRolePermission]
  rcases hh : httpCall (.createRolePermission roleID serverID permissionID stackPattern) env
    with ⟨res, env'⟩
  have henv' : env' = bump env (.createRolePermission roleID serverID permissionID stackPattern) := by
    have := httpCall_snd (.createRolePermission roleID serverID permissionID stackPattern) env
    rw [hh] at this
    exact this
  cases res <;> simp [henv', bump]

theorem ListRolePermissions_trace (roleID : Nat) (env : Env) :
    (ListRolePermissions roleID env).2.trace = env.trace ++ [.listRolePermissions roleID] := by
  simp only [ListRolePermissions]
  rcases hh : httpCall (.listRolePermissions roleID) env with ⟨res, env'⟩
  have henv' : env' = bump env (.listRolePermissions roleID) := by
    have := httpCall_snd (.listRolePermissions roleID) env
    rw [hh] at this
    exact this
  cases res <;> simp [henv', bump]

end Client

namespace RoleResource

theorem permSetPermsLoop_no_delete (roleID serverID : Nat)
    (pds : List PermissionDefinition) (env : Env) :
    ((permSetPermsLoop roleID serverID pds env).2.trace.filter ApiOp.isDeleteRP) =
      env.trace.filter ApiOp.isDeleteRP := by
  induction pds generalizing env with
  | nil => simp [permSetPermsLoop]
  | cons pd rest ih =>
    simp only [permSetPermsLoop]
    rcases hg : Client.GetPermissionByName pd.name.valueString env with ⟨res, env1⟩
    have h1 : env1.trace = env.trace ++ [.listPermissions] := by
      have := Client.GetPermissionByName_trace pd.name.valueString env
      rw [hg] at this
      exact this
    cases res with
    | error e => simp [h1, List.filter_append, ApiOp.isDeleteRP]
    | ok permission =>
      simp only []
      rcases hc : Client.CreateRolePermission roleID serverID permission.id
        (if !pd.pattern.isNull && !pd.pattern.isUnknown then pd.pattern.valueString else "*")
        env1 with ⟨res2, env2⟩
      have h2 : env2.trace = env1.trace ++
          [.createRolePermission roleID serverID permission.id
            (if !pd.pattern.isNull && !pd.pattern.isUnknown then pd.pattern.valueString
             else "*")] := by
        have := Client.CreateRolePermission_trace roleID serverID permission.id
          (if !pd.pattern.isNull && !pd.pattern.isUnknown then pd.pattern.valueString else "*")
          env1
        rw [hc] at this
        exact this
      cases res2 with
      | error e => simp [h2, h1, List.filter_append, ApiOp.isDeleteRP]
      | ok created =>
        simp only []
        rw [ih env2, h2, h1]
        simp [List.filter_append, ApiOp.isDeleteRP]

theorem permSetServersLoop_no_delete (roleID : Nat) (pds : List PermissionDefinition)
    (sids : List TFInt64) (env : Env) :
    ((permSetServersLoop roleID pds sids env).2.trace.filter ApiOp.isDeleteRP) =
      env.trace.filter ApiOp.isDeleteRP := by
  induction sids generalizing env with
  | nil => simp [permSetServersLoop]
  | cons sid rest ih =>
    simp only [permSetServersLoop]
    rcases hp : permSetPermsLoop roleID (uintOf sid.valueInt64) pds env with ⟨res, env1⟩
    have h1 : env1.trace.filter ApiOp.isDeleteRP = env.trace.filter ApiOp.isDeleteRP := by
      have := permSetPermsLoop_no_delete roleID (uintOf sid.valueInt64) pds env
      rw [hp] at this
      exact this
    cases res with
    | error d => simpa using h1
    | ok u => rw [ih env1, h1]

theorem permSetsLoop_no_delete (roleID : Nat) (sets : List PermissionSet) (env : Env) :
    ((permSetsLoop roleID sets env).2.trace.filter ApiOp.isDeleteRP) =
      env.trace.filter ApiOp.isDeleteRP := by
  induction sets generalizing env with
  | nil => simp [permSetsLoop]
  | cons ps rest ih =>
    simp only [permSetsLoop]
    rcases hp : permSetServersLoop roleID ps.permissions ps.serverIDs env with ⟨res, env1⟩
    have h1 : env1.trace.filter ApiOp.isDeleteRP = env.trace.filter ApiOp.isDeleteRP := by
      have := permSetServersLoop_no_delete roleID ps.permissions ps.serverIDs env
      rw [hp] at this
      exact this
    cases res with
    | error d => simpa using h1
    | ok u => rw [ih env1, h1]

theorem inlinePermsLoop_no_delete (roleID : Nat) (perms : List RolePermissionInline)
    (env : Env) :
    ((inlinePermsLoop roleID perms env).2.trace.filter ApiOp.isDeleteRP) =
      env.trace.filter ApiOp.isDeleteRP := by
  induction perms generalizing env with
  | nil => simp [inlinePermsLoop]
  | cons perm rest ih =>
    simp only [inlinePermsLoop]
    rcases hg : Client.GetPermissionByName perm.permissionName.valueString env with ⟨res, env1⟩
    have h1 : env1.trace = env.trace ++ [.listPermissions] := by
      have := Client.GetPermissionByName_trace perm.permissionName.valueString env
      rw [hg] at this
      exact this
    cases res with
    | error e => simp [h1, List.filter_append, ApiOp.isDeleteRP]
    | ok permission =>
      simp only []
      rcases hc : Client.CreateRolePermission roleID (uintOf perm.serverID.valueInt64)
        permission.id
        (if !perm.stackPattern.isNull && !perm.stackPattern.isUnknown then
          perm.stackPattern.valueString else "*") env1 with ⟨res2, env2⟩
      have h2 : env2.trace.filter ApiOp.isDeleteRP = env1.trace.filter ApiOp.isDeleteRP := by
        have h2' : env2.trace = env1.trace ++
            [.createRolePermission roleID (uintOf perm.serverID.valueInt64) permission.id
              (if !perm.stackPattern.isNull && !perm.stackPattern.isUnknown then
                perm.stackPattern.valueString else "*")] := by
          have := Client.CreateRolePermission_trace roleID (uintOf perm.serverID.valueInt64)
            permission.id
            (if !perm.stackPattern.isNull && !perm.stackPattern.isUnknown then
              perm.stackPattern.valueString else "*") env1
          rw [hc] at this
          exact this
        rw [h2']
        simp [List.filter_append, ApiOp.isDeleteRP]
      cases res2 with
      | error e => simp [h2, h1, List.filter_append, ApiOp.isDeleteRP]
      | ok created =>
        simp only []
        rcases hl : Client.ListRolePermissions roleID env2 with ⟨res3, env3⟩
        have h3 : env3.trace.filter ApiOp.isDeleteRP = env2.trace.filter ApiOp.isDeleteRP := by
          have h3' : env3.trace = env2.trace ++ [.listRolePermissions roleID] := by
            have := Client.ListRolePermissions_trace roleID env2
            rw [hl] at this
            exact this
          rw [h3']
          simp [List.filter_append, ApiOp.isDeleteRP]
        cases res3 with
        | error e =>
          simp only []
          rw [h3, h2, h1]
          simp [List.filter_append, ApiOp.isDeleteRP]
        | ok pair =>
          simp only []
          rcases hr : inlinePermsLoop roleID rest env3 with ⟨res4, env4⟩
          have h4 : env4.trace.filter ApiOp.isDeleteRP = env3.trace.filter ApiOp.isDeleteRP := by
            have := ih env3
            rw [hr] at this
            exact this
          have hall : env4.trace.filter ApiOp.isDeleteRP = env.trace.filter ApiOp.isDeleteRP := by
            rw [h4, h3, h2, h1]
            simp [List.filter_append, ApiOp.isDeleteRP]
          rcases pair with ⟨perms2, cat⟩
          cases res4 <;> simpa using hall

theorem Create_no_delete (plan : RoleResourceModel) (env : Env) :
    ((Create plan env).2.trace.filter ApiOp.isDeleteRP) =
      env.trace.filter ApiOp.isDeleteRP := by
  simp only [Create]
  rcases hc : Client.CreateRole plan.name.valueString plan.description.valueString env
    with ⟨res, env1⟩
  have h1 : env1.trace = env.trace ++ [.createRole plan.name.valueString plan.description.valueString] := by
    have := Client.CreateRole_trace plan.name.valueString plan.description.valueString env
    rw [hc] at this
    exact this
  cases res with
  | error e => simp [h1, List.filter_append, ApiOp.isDeleteRP]
  | ok role =>
    simp only []
    rcases hs : permSetsLoop role.id plan.permissionSets env1 with ⟨res2, env2⟩
    have h2 : env2.trace.filter ApiOp.isDeleteRP = env1.trace.filter ApiOp.isDeleteRP := by
      have := permSetsLoop_no_delete role.id plan.permissionSets env1
      rw [hs] at this
      exact this
    cases res2 with
    | error d =>
      simp only []
      rw [h2, h1]
      simp [List.filter_append, ApiOp.isDeleteRP]
    | ok u =>
      simp only []
      rcases hi : inlinePermsLoop role.id plan.permissions env2 with ⟨res3, env3⟩
      have h3 : env3.trace.filter ApiOp.isDeleteRP = env2.trace.filter ApiOp.isDeleteRP := by
        have := inlinePermsLoop_no_delete role.id plan.permissions env2
        rw [hi] at this
        exact this
      have hall : env3.trace.filter ApiOp.isDeleteRP = env.trace.filter ApiOp.isDeleteRP := by
        rw [h3, h2, h1]
        simp [List.filter_append, ApiOp.isDeleteRP]
      cases res3 <;> simpa using hall

theorem deleteLoop_nofail (roleID : Nat) (perms : List RolePermission) (env : Env)
    (h : env.failSet = []) :
    (deleteLoop roleID perms env).1 = .ok () ∧
    (deleteLoop roleID perms env).2.trace =
      env.trace ++ perms.map (fun p => ApiOp.deleteRolePermission roleID p.id) ∧
    (deleteLoop roleID perms env).2.failSet = [] ∧
    (deleteLoop roleID perms env).2.remote.catalog = env.remote.catalog := by
  induction perms generalizing env with
  | nil => simp [deleteLoop, h]
  | cons p rest ih =>
    simp only [deleteLoop]
    rcases hc : Client.DeleteRolePermission roleID p.id env with ⟨res, env1⟩
    have heq := Client.DeleteRolePermission_nofail roleID p.id env h
    rw [hc, Prod.mk.injEq] at heq
    obtain ⟨hres, henv1⟩ := heq
    subst hres
    have h1t : env1.trace = env.trace ++ [.deleteRolePermission roleID p.id] := by
      rw [henv1]
      simp [bump]
    have h1f : env1.failSet = [] := by
      rw [henv1]
      simp [bump, h]
    have h1c : env1.remote.catalog = env.remote.catalog := by
      rw [henv1]
    obtain ⟨i1, i2, i3, i4⟩ := ih env1 h1f
    simp only []
    refine ⟨i1, ?_, i3, by rw [i4, h1c]⟩
    rw [i2, h1t]
    simp

theorem permSetPermsLoop_nofail (roleID serverID : Nat) (pds : List PermissionDefinition)
    (env : Env) (h : env.failSet = []) (hn : namesOkPD env.remote.catalog pds = true) :
    (permSetPermsLoop roleID serverID pds env).1 = .ok () ∧
    (permSetPermsLoop roleID serverID pds env).2.trace =
      env.trace ++ permsOpsPS env.remote.catalog roleID serverID pds ∧
    (permSetPermsLoop roleID serverID pds env).2.failSet = [] ∧
    (permSetPermsLoop roleID serverID pds env).2.remote.catalog = env.remote.catalog := by
  induction pds generalizing env with
  | nil => simp [permSetPermsLoop, permsOpsPS, h]
  | cons pd rest ih =>
    simp only [namesOkPD, List.all_cons, Bool.and_eq_true] at hn
    obtain ⟨hpd, hrest⟩ := hn
    obtain ⟨perm, hperm⟩ := Option.isSome_iff_exists.mp hpd
    simp only [permSetPermsLoop]
    rcases hg : Client.GetPermissionByName pd.name.valueString env with ⟨res, env1⟩
    have heq := Client.GetPermissionByName_eq pd.name.valueString env h
    rw [hg] at heq
    simp only [hperm] at heq
    rw [Prod.mk.injEq] at heq
    obtain ⟨hres, henv1⟩ := heq
    subst hres
    have h1t : env1.trace = env.trace ++ [.listPermissions] := by
      rw [henv1]
      simp [bump]
    have h1f : env1.failSet = [] := by
      rw [henv1]
      simp [bump, h]
    have h1r : env1.remote = env.remote := by
      rw [henv1]
      simp [bump]
    simp only []
    rcases hc : Client.CreateRolePermission roleID serverID perm.id
      (if !pd.pattern.isNull && !pd.pattern.isUnknown then pd.pattern.valueString else "*")
      env1 with ⟨res2, env2⟩
    have heq2 := Client.CreateRolePermission_nofail roleID serverID perm.id
      (if !pd.pattern.isNull && !pd.pattern.isUnknown then pd.pattern.valueString else "*")
      env1 h1f
    rw [hc, Prod.mk.injEq] at heq2
    obtain ⟨hres2, henv2⟩ := heq2
    subst hres2
    have h2t : env2.trace = env1.trace ++
        [.createRolePermission roleID serverID perm.id
          (if !pd.pattern.isNull && !pd.pattern.isUnknown then pd.pattern.valueString
           else "*")] := by
      rw [henv2]
      simp [bump]
    have h2f : env2.failSet = [] := by
      rw [henv2]
      simp [bump, h1f]
    have h2c : env2.remote.catalog = env.remote.catalog := by
      rw [henv2]
      simp [bump, h1r]
    simp only []
    obtain ⟨i1, i2, i3, i4⟩ := ih env2 h2f (by rw [h2c]; exact hrest)
    refine ⟨i1, ?_, i3, by rw [i4, h2c]⟩
    rw [i2, h2c, h2t, h1t]
    simp only [permsOpsPS, permIdIn, hperm, patternOfPD, Option.map_some, Option.getD_some]
    simp

theorem permSetServersLoop_nofail (roleID : Nat) (pds : List PermissionDefinition)
    (sids : List TFInt64) (env : Env) (h : env.failSet = [])
    (hn : namesOkPD env.remote.catalog pds = true) :
    (permSetServersLoop roleID pds sids env).1 = .ok () ∧
    (permSetServersLoop roleID pds sids env).2.trace =
      env.trace ++ serversOpsPS env.remote.catalog roleID pds sids ∧
    (permSetServersLoop roleID pds sids env).2.failSet = [] ∧
    (permSetServersLoop roleID pds sids env).2.remote.catalog = env.remote.catalog := by
  induction sids generalizing env with
  | nil => simp [permSetServersLoop, serversOpsPS, h]
  | cons sid rest ih =>
    simp only [permSetServersLoop]
    rcases hp : permSetPermsLoop roleID (uintOf sid.valueInt64) pds env with ⟨res, env1⟩
    obtain ⟨j1, j2, j3, j4⟩ :=
      permSetPermsLoop_nofail roleID (uintOf sid.valueInt64) pds env h hn
    rw [hp] at j1 j2 j3 j4
    simp only [] at j1 j2 j3 j4
    subst j1
    simp only []
    obtain ⟨i1, i2, i3, i4⟩ := ih env1 j3 (by rw [j4]; exact hn)
    refine ⟨i1, ?_, i3, by rw [i4, j4]⟩
    rw [i2, j4, j2]
    simp [serversOpsPS]

theorem permSetsLoop_nofail (roleID : Nat) (sets : List PermissionSet) (env : Env)
    (h : env.failSet = []) (hn : namesOkSets env.remote.catalog sets = true) :
    (permSetsLoop roleID sets env).1 = .ok () ∧
    (permSetsLoop roleID sets env).2.trace =
      env.trace ++ setsOps env.remote.catalog roleID sets ∧
    (permSetsLoop roleID sets env).2.failSet = [] ∧
    (permSetsLoop roleID sets env).2.remote.catalog = env.remote.catalog := by
  induction sets generalizing env with
  | nil => simp [permSetsLoop, setsOps, h]
  | cons ps rest ih =>
    simp only [namesOkSets, List.all_cons, Bool.and_eq_true] at hn
    obtain ⟨hps, hrest⟩ := hn
    simp only [permSetsLoop]
    rcases hp : permSetServersLoop roleID ps.permissions ps.serverIDs env with ⟨res, env1⟩
    obtain ⟨j1, j2, j3, j4⟩ :=
      permSetServersLoop_nofail roleID ps.permissions ps.serverIDs env h hps
    rw [hp] at j1 j2 j3 j4
    simp only [] at j1 j2 j3 j4
    subst j1
    simp only []
    obtain ⟨i1, i2, i3, i4⟩ := ih env1 j3 (by rw [j4]; exact hrest)
    refine ⟨i1, ?_, i3, by rw [i4, j4]⟩
    rw [i2, j4, j2]
    simp [setsOps]

theorem inlinePermsLoop_nofail (roleID : Nat) (perms : List RolePermissionInline)
    (env : Env) (h : env.failSet = [])
    (hn : namesOkInline env.remote.catalog perms = true) :
    (∃ out, (inlinePermsLoop roleID perms env).1 = .ok out) ∧
    (inlinePermsLoop roleID perms env).2.trace =
      env.trace ++ inlineOps env.remote.catalog roleID perms ∧
    (inlinePermsLoop roleID perms env).2.failSet = [] ∧
    (inlinePermsLoop roleID perms env).2.remote.catalog = env.remote.catalog := by
  induction perms generalizing env with
  | nil => simp [inlinePermsLoop, inlineOps, h]
  | cons perm rest ih =>
    simp only [namesOkInline, List.all_cons, Bool.and_eq_true] at hn
    obtain ⟨hpd, hrest⟩ := hn
    obtain ⟨permission, hperm⟩ := Option.isSome_iff_exists.mp hpd
    simp only [inlinePermsLoop]
    rcases hg : Client.GetPermissionByName perm.permissionName.valueString env with ⟨res, env1⟩
    have heq := Client.GetPermissionByName_eq perm.permissionName.valueString env h
    rw [hg] at heq
    simp only [hperm] at heq
    rw [Prod.mk.injEq] at heq
    obtain ⟨hres, henv1⟩ := heq
    subst hres
    have h1t : env1.trace = env.trace ++ [.listPermissions] := by
      rw [henv1]
      simp [bump]
    have h1f : env1.failSet = [] := by
      rw [henv1]
      simp [bump, h]
    have h1r : env1.remote = env.remote := by
      rw [henv1]
      simp [bump]
    simp only []
    rcases hc : Client.CreateRolePermission roleID (uintOf perm.serverID.valueInt64)
      permission.id
      (if !perm.stackPattern.isNull && !perm.stackPattern.isUnknown then
        perm.stackPattern.valueString else "*") env1 with ⟨res2, env2⟩
    have heq2 := Client.CreateRolePermission_nofail roleID (uintOf perm.serverID.valueInt64)
      permission.id
      (if !perm.stackPattern.isNull && !perm.stackPattern.isUnknown then
        perm.stackPattern.valueString else "*") env1 h1f
    rw [hc, Prod.mk.injEq] at heq2
    obtain ⟨hres2, henv2⟩ := heq2
    subst hres2
    have h2t : env2.trace = env1.trace ++
        [.createRolePermission roleID (uintOf perm.serverID.valueInt64) permission.id
          (if !perm.stackPattern.isNull && !perm.stackPattern.isUnknown then
            perm.stackPattern.valueString else "*")] := by
      rw [henv2]
      simp [bump]
    have h2f : env2.failSet = [] := by
      rw [henv2]
      simp [bump, h1f]
    have h2c : env2.remote.catalog = env.remote.catalog := by
      rw [henv2]
      simp [bump, h1r]
    simp only []
    rcases hl : Client.ListRolePermissions roleID env2 with ⟨res3, env3⟩
    have heq3 := Client.ListRolePermissions_nofail roleID env2 h2f
    rw [hl, Prod.mk.injEq] at heq3
    obtain ⟨hres3, henv3⟩ := heq3
    subst hres3
    have h3t : env3.trace = env2.trace ++ [.listRolePermissions roleID] := by
      rw [henv3]
      simp [bump]
    have h3f : env3.failSet = [] := by
      rw [henv3]
      simp [bump, h2f]
    have h3c : env3.remote.catalog = env2.remote.catalog := by
      rw [henv3]
      simp [bump]
    simp only []
    rcases hr : inlinePermsLoop roleID rest env3 with ⟨res4, env4⟩
    obtain ⟨⟨out, i1⟩, i2, i3, i4⟩ := ih env3 h3f (by rw [h3c, h2c]; exact hrest)
    rw [hr] at i1 i2 i3 i4
    simp only [] at i1 i2 i3 i4
    subst i1
    simp only []
    refine ⟨⟨_, rfl⟩, ?_, i3, by rw [i4, h3c, h2c]⟩
    rw [i2, h3c, h2c, h3t, h2t, h1t]
    simp only [inlineOps, permIdIn, hperm, patternOfInline, Option.map_some, Option.getD_some]
    simp

theorem Update_nofail_trace (plan state : RoleResourceModel) (env : Env) (roleID : Nat)
    (h : env.failSet = []) (hid : parseUint64 plan.id.valueString = .ok roleID)
    (hcond : (plan.permissions.length > 0 || state.permissions.length > 0 ||
      plan.permissionSets.length > 0 || state.permissionSets.length > 0) = true)
    (hns : namesOkSets env.remote.catalog plan.permissionSets = true)
    (hni : namesOkInline env.remote.catalog plan.permissions = true) :
    (Update plan state env).1.diags = [] ∧
    (Update plan state env).2.trace =
      env.trace ++
        ApiOp.updateRole roleID plan.name.valueString plan.description.valueString ::
        ApiOp.listRolePermissions roleID ::
        ((permsOfRole roleID env.remote).map (fun p => ApiOp.deleteRolePermission roleID p.id) ++
         setsOps env.remote.catalog roleID plan.permissionSets ++
         inlineOps env.remote.catalog roleID plan.permissions) := by
  simp only [Update, hid]
  rcases hu : Client.UpdateRole roleID plan.name.valueString plan.description.valueString env
    with ⟨res, env1⟩
  have hequ := Client.UpdateRole_nofail roleID plan.name.valueString
    plan.description.valueString env h
  rw [hu, Prod.mk.injEq] at hequ
  obtain ⟨hres, henv1⟩ := hequ
  subst hres
  have h1t : env1.trace = env.trace ++
      [.updateRole roleID plan.name.valueString plan.description.valueString] := by
    rw [henv1]
    simp [bump]
  have h1f : env1.failSet = [] := by
    rw [henv1]
    simp [bump, h]
  have h1c : env1.remote.catalog = env.remote.catalog := by
    rw [henv1]
  have h1p : env1.remote.rolePerms = env.remote.rolePerms := by
    rw [henv1]
  simp only [hcond, if_true]
  rcases hl : Client.ListRolePermissions roleID env1 with ⟨res2, env2⟩
  have heql := Client.ListRolePermissions_nofail roleID env1 h1f
  rw [hl, Prod.mk.injEq] at heql
  obtain ⟨hres2, henv2⟩ := heql
  subst hres2
  have hperms : permsOfRole roleID env1.remote = permsOfRole roleID env.remote := by
    simp [permsOfRole, h1p]
  have h2t : env2.trace = env1.trace ++ [.listRolePermissions roleID] := by
    rw [henv2]
    simp [bump]
  have h2f : env2.failSet = [] := by
    rw [henv2]
    simp [bump, h1f]
  have h2c : env2.remote.catalog = env.remote.catalog := by
    rw [henv2]
    simp [bump, h1c]
  have h2p : env2.remote.rolePerms = env.remote.rolePerms := by
    rw [henv2]
    simp [bump, h1p]
  simp only []
  rcases hd : deleteLoop roleID (permsOfRole roleID env1.remote) env2 with ⟨res3, env3⟩
  obtain ⟨j1, j2, j3, j4⟩ := deleteLoop_nofail roleID (permsOfRole roleID env1.remote) env2 h2f
  rw [hd] at j1 j2 j3 j4
  simp only [] at j1 j2 j3 j4
  subst j1
  simp only []
  rcases hs : permSetsLoop roleID plan.permissionSets env3 with ⟨res4, env4⟩
  obtain ⟨k1, k2, k3, k4⟩ := permSetsLoop_nofail roleID plan.permissionSets env3 j3
    (by rw [j4, h2c]; exact hns)
  rw [hs] at k1 k2 k3 k4
  simp only [] at k1 k2 k3 k4
  subst k1
  simp only []
  rcases hi : inlinePermsLoop roleID plan.permissions env4 with ⟨res5, env5⟩
  obtain ⟨⟨out, i1⟩, i2, i3, i4⟩ := inlinePermsLoop_nofail roleID plan.permissions env4 k3
    (by rw [k4, j4, h2c]; exact hni)
  rw [hi] at i1 i2 i3 i4
  simp only [] at i1 i2 i3 i4
  subst i1
  simp only []
  refine ⟨by trivial, ?_⟩
  rw [i2, k4, j4, h2c, k2, j4, h2c, j2, hperms, h2t, h1t]
  simp

end RoleResource

theorem permsOpsPS_filter_recon (c : List Permission) (r s : Nat)
    (pds : List PermissionDefinition) :
    (permsOpsPS c r s pds).filter ApiOp.isReconOp = permsCreatesPS c r s pds := by
  induction pds with
  | nil => rfl
  | cons pd rest ih =>
    simp [permsOpsPS, permsCreatesPS, List.filter_cons, ApiOp.isReconOp, ih]

theorem serversOpsPS_filter_recon (c : List Permission) (r : Nat)
    (pds : List PermissionDefinition) (sids : List TFInt64) :
    (serversOpsPS c r pds sids).filter ApiOp.isReconOp = serversCreatesPS c r pds sids := by
  induction sids with
  | nil => rfl
  | cons sid rest ih =>
    simp [serversOpsPS, serversCreatesPS, List.filter_append, permsOpsPS_filter_recon, ih]

theorem setsOps_filter_recon (c : List Permission) (r : Nat) (sets : List PermissionSet) :
    (setsOps c r sets).filter ApiOp.isReconOp = setsCreates c r sets := by
  induction sets with
  | nil => rfl
  | cons ps rest ih =>
    simp [setsOps, setsCreates, List.filter_append, serversOpsPS_filter_recon, ih]

theorem inlineOps_filter_recon (c : List Permission) (r : Nat)
    (perms : List RolePermissionInline) :
    (inlineOps c r perms).filter ApiOp.isReconOp = inlineCreates c r perms := by
  induction perms with
  | nil => rfl
  | cons p rest ih =>
    simp [inlineOps, inlineCreates, List.filter_cons, ApiOp.isReconOp, ih]

theorem permsCreatesPS_filter_delete (c : List Permission) (r s : Nat)
    (pds : List PermissionDefinition) :
    (permsCreatesPS c r s pds).filter ApiOp.isDeleteRP = [] := by
  induction pds with
  | nil => rfl
  | cons pd rest ih => simp [permsCreatesPS, List.filter_cons, ApiOp.isDeleteRP, ih]

theorem serversCreatesPS_filter_delete (c : List Permission) (r : Nat)
    (pds : List PermissionDefinition) (sids : List TFInt64) :
    (serversCreatesPS c r pds sids).filter ApiOp.isDeleteRP = [] := by
  induction sids with
  | nil => rfl
  | cons sid rest ih =>
    simp [serversCreatesPS, List.filter_append, permsCreatesPS_filter_delete, ih]

theorem setsCreates_filter_delete (c : List Permission) (r : Nat)
    (sets : List PermissionSet) :
    (setsCreates c r sets).filter ApiOp.isDeleteRP = [] := by
  induction sets with
  | nil => rfl
  | cons ps rest ih =>
    simp [setsCreates, List.filter_append, serversCreatesPS_filter_delete, ih]

theorem inlineCreates_filter_delete (c : List Permission) (r : Nat)
    (perms : List RolePermissionInline) :
    (inlineCreates c r perms).filter ApiOp.isDeleteRP = [] := by
  induction perms with
  | nil => rfl
  | cons p rest ih => simp [inlineCreates, List.filter_cons, ApiOp.isDeleteRP, ih]

theorem setsOps_filter_delete (c : List Permission) (r : Nat) (sets : List PermissionSet) :
    (setsOps c r sets).filter ApiOp.isDeleteRP = [] := by
  induction sets with
  | nil => rfl
  | cons ps rest ih =>
    have hs : ∀ pds sids, (serversOpsPS c r pds sids).filter ApiOp.isDeleteRP = [] := by
      intro pds sids
      induction sids with
      | nil => rfl
      | cons sid rest2 ih2 =>
        have hp : ∀ pds2, (permsOpsPS c r (uintOf sid.valueInt64) pds2).filter
            ApiOp.isDeleteRP = [] := by
          intro pds2
          induction pds2 with
          | nil => rfl
          | cons pd rest3 ih3 =>
            simp [permsOpsPS, List.filter_cons, ApiOp.isDeleteRP, ih3]
        simp [serversOpsPS, List.filter_append, hp, ih2]
    simp [setsOps, List.filter_append, hs, ih]

theorem inlineOps_filter_delete (c : List Permission) (r : Nat)
    (perms : List RolePermissionInline) :
    (inlineOps c r perms).filter ApiOp.isDeleteRP = [] := by
  induction perms with
  | nil => rfl
  | cons p rest ih => simp [inlineOps, List.filter_cons, ApiOp.isDeleteRP, ih]

theorem deletes_filter_recon (r : Nat) (perms : List RolePermission) :
    ((perms.map (fun p => ApiOp.deleteRolePermission r p.id)).filter ApiOp.isReconOp) =
      perms.map (fun p => ApiOp.deleteRolePermission r p.id) := by
  induction perms with
  | nil => rfl
  | cons p rest ih => simp [List.filter_cons, ApiOp.isReconOp, ih]

/-- Catalogue permission used by the concrete scenarios. -/
def permStacksRead : Permission :=
  { id := 1, name := "stacks.read", resource := "stacks", action := "read", description := "" }

/-- Catalogue permission used by the concrete scenarios. -/
def permFilesRead : Permission :=
  { id := 3, name := "files.read", resource := "files", action := "read", description := "" }

/-- Remote role used by the concrete scenarios. -/
def roleOps : Role := { id := 7, name := "ops", description := "", isAdmin := false }

/-- A permission rule attached to role 7 in the concrete scenarios. -/
def rpA : RolePermission := { id := 1, serverID := 1, permissionID := 1, stackPattern := "*" }

/-- A second permission rule of role 7 in the concrete scenarios. -/
def rpB : RolePermission := { id := 2, serverID := 2, permissionID := 1, stackPattern := "*" }

/-- Baseline remote server state of the concrete scenarios. -/
def remote0 : Remote :=
  { roles := [roleOps], rolePerms := [(7, rpA), (7, rpB)]
    catalog := [permStacksRead, permFilesRead], nextRoleID := 8, nextRolePermID := 10 }

/-- Baseline failure-free environment. -/
def env0 : Env := { remote := remote0, calls := 0, trace := [], failSet := [] }

/-- A role plan with one permission set (pattern given) and one inline
permission (pattern omitted). -/
def planC1 : RoleResourceModel :=
  { id := .value "7", name := .value "ops", description := .value ""
    permissions := [{ id := .null, serverID := .value 1
                      permissionName := .value "files.read", stackPattern := .null }]
    permissionSets := [{ serverIDs := [.value 1, .value 2]
                         permissions := [{ name := .value "stacks.read"
                                           pattern := .value "prod-*" }] }] }

/-- An environment in which the served role id 5 already has an attached
permission rule (`rpA`). -/
def envC1x : Env :=
  { remote := { roles := [], rolePerms := [(5, rpA)], catalog := [permStacksRead]
                nextRoleID := 5, nextRolePermID := 10 }
    calls := 0, trace := [], failSet := [] }

/-- A role plan with one permission-set entry, used against `envC1x`. -/
def planC1x : RoleResourceModel :=
  { id := .null, name := .value "r", description := .null, permissions := []
    permissionSets := [{ serverIDs := [.value 1]
                         permissions := [{ name := .value "stacks.read", pattern := .null }] }] }

/-- C1 counterexample: the role resource's Create handler never deletes.  In
`envC1x` the role id the server will assign (5) already has an attached
permission rule; Create succeeds and creates the desired permission, yet its
trace contains no DeleteRolePermission call and the pre-existing rule is
still attached afterwards — so the claimed delete-then-recreate pattern does
not occur in Create. -/
theorem role_create_issues_no_deletes :
    (envC1x.remote.rolePerms.filter (fun e => e.1 == 5)).length = 1 ∧
    (RoleResource.Create planC1x envC1x).1.diags = [] ∧
    ((RoleResource.Create planC1x envC1x).2.trace.filter ApiOp.isDeleteRP) = [] ∧
    ((RoleResource.Create planC1x envC1x).2.trace.filter ApiOp.isCreateRP) =
      [.createRolePermission 5 1 1 "*"] ∧
    (RoleResource.Create planC1x envC1x).2.remote.rolePerms.contains (5, rpA) = true := by
  decide

/-- C1 (amended): delete-then-recreate happens in Update only.  On a
failure-free Update whose plan or prior state mentions inline permissions or
permission sets (and whose id parses and permission names resolve), the
trace is exactly: the role update, one list call, a delete for every
permission currently attached to the role (in listed order), and only then
the creates of the desired permissions; the creates segment contains no
delete.  The Create handler never issues a delete, on any input. -/
theorem role_update_delete_all_before_create (plan state : RoleResourceModel) (env : Env)
    (roleID : Nat) (h : env.failSet = [])
    (hid : parseUint64 plan.id.valueString = .ok roleID)
    (hcond : (plan.permissions.length > 0 || state.permissions.length > 0 ||
      plan.permissionSets.length > 0 || state.permissionSets.length > 0) = true)
    (hns : namesOkSets env.remote.catalog plan.permissionSets = true)
    (hni : namesOkInline env.remote.catalog plan.permissions = true) :
    ((RoleResource.Update plan state env).2.trace =
      env.trace ++
        ApiOp.updateRole roleID plan.name.valueString plan.description.valueString ::
        ApiOp.listRolePermissions roleID ::
        ((permsOfRole roleID env.remote).map (fun p => ApiOp.deleteRolePermission roleID p.id) ++
         setsOps env.remote.catalog roleID plan.permissionSets ++
         inlineOps env.remote.catalog roleID plan.permissions)) ∧
    ((setsOps env.remote.catalog roleID plan.permissionSets ++
      inlineOps env.remote.catalog roleID plan.permissions).filter ApiOp.isDeleteRP = []) ∧
    (∀ (plan2 : RoleResourceModel) (env2 : Env),
      ((RoleResource.Create plan2 env2).2.trace.filter ApiOp.isDeleteRP) =
        env2.trace.filter ApiOp.isDeleteRP) := by
  refine ⟨(RoleResource.Update_nofail_trace plan state env roleID h hid hcond hns hni).2,
    ?_, fun plan2 env2 => RoleResource.Create_no_delete plan2 env2⟩
  simp [List.filter_append, setsOps_filter_delete, inlineOps_filter_delete]

/-- Witness for C1 at a concrete plan, state and environment. -/
theorem role_update_delete_all_before_create_witness :
    ((RoleResource.Update planC1 planC1 env0).2.trace =
      env0.trace ++
        ApiOp.updateRole 7 planC1.name.valueString planC1.description.valueString ::
        ApiOp.listRolePermissions 7 ::
        ((permsOfRole 7 env0.remote).map (fun p => ApiOp.deleteRolePermission 7 p.id) ++
         setsOps env0.remote.catalog 7 planC1.permissionSets ++
         inlineOps env0.remote.catalog 7 planC1.permissions)) ∧
    ((setsOps env0.remote.catalog 7 planC1.permissionSets ++
      inlineOps env0.remote.catalog 7 planC1.permissions).filter ApiOp.isDeleteRP = []) ∧
    (∀ (plan2 : RoleResourceModel) (env2 : Env),
      ((RoleResource.Create plan2 env2).2.trace.filter ApiOp.isDeleteRP) =
        env2.trace.filter ApiOp.isDeleteRP) :=
  role_update_delete_all_before_create planC1 planC1 env0 7 rfl (by decide) (by decide)
    (by decide) (by decide)

/-- An Update plan replacing the two attached rules by one inline
`files.read` permission. -/
def planC2 : RoleResourceModel :=
  { id := .value "7", name := .value "ops", description := .value ""
    permissions := [{ id := .null, serverID := .value 1
                      permissionName := .value "files.read", stackPattern := .null }]
    permissionSets := [] }

/-- An environment whose transport fails at the fourth HTTP call (index 3):
the delete of the second attached permission. -/
def envC2 : Env :=
  { remote := remote0, calls := 0, trace := [], failSet := [(3, "connection reset")] }

/-- C2: the Update reconciliation has no partial-failure recovery.  With the
transport failing on the second DeleteRolePermission call, the handler adds
exactly the delete-failure diagnostic and stops (no state written, no
further or compensating operation in the trace), leaving the role with
remote permission set `[rpB]` — different from the prior `[rpA, rpB]` and
from the planned single `files.read` (permission id 3) rule, which was never
created. -/
theorem role_update_midloop_failure_diverges :
    (RoleResource.Update planC2 planC2 envC2).1 =
      ⟨[("Failed to delete permission",
         "failed to delete role permission: connection reset")], none⟩ ∧
    (RoleResource.Update planC2 planC2 envC2).2.trace =
      [.updateRole 7 "ops" "", .listRolePermissions 7,
       .deleteRolePermission 7 1, .deleteRolePermission 7 2] ∧
    permsOfRole 7 envC2.remote = [rpA, rpB] ∧
    permsOfRole 7 (RoleResource.Update planC2 planC2 envC2).2.remote = [rpB] ∧
    ((permsOfRole 7 (RoleResource.Update planC2 planC2 envC2).2.remote).filter
      (fun p => p.permissionID == 3)) = [] := by
  decide

/-- C4 counterexample: on a concrete plan, state and environment the
reconciliation's delete/create operations come out in exactly the fixed
order the claim denies (deletes of the existing rules in listed order, then
the permission-set creates with server_ids outer and permissions inner, then
the inline creates), and a second run on the same inputs is identical. -/
theorem role_update_recon_order_counterexample :
    RoleResource.Update planC1 planC1 env0 = RoleResource.Update planC1 planC1 env0 ∧
    ((RoleResource.Update planC1 planC1 env0).2.trace.filter ApiOp.isReconOp) =
      [.deleteRolePermission 7 1, .deleteRolePermission 7 2,
       .createRolePermission 7 1 1 "prod-*", .createRolePermission 7 2 1 "prod-*",
       .createRolePermission 7 1 3 "*"] :=
  ⟨rfl, by decide⟩

/-- C4 (amended): the reconciliation order is fixed and deterministic.  On
every failure-free Update run (id parsing, names resolving, reconciliation
entered) the delete/create subsequence of the trace is exactly: all existing
permissions deleted in listed order, then the permission-set creates with
server_ids outer and permissions inner in list order, then the inline
creates in list order.  The handler is a function of plan, state and
environment, so two runs on the same inputs are identical. -/
theorem role_update_recon_fixed_order (plan state : RoleResourceModel) (env : Env)
    (roleID : Nat) (h : env.failSet = [])
    (hid : parseUint64 plan.id.valueString = .ok roleID)
    (hcond : (plan.permissions.length > 0 || state.permissions.length > 0 ||
      plan.permissionSets.length > 0 || state.permissionSets.length > 0) = true)
    (hns : namesOkSets env.remote.catalog plan.permissionSets = true)
    (hni : namesOkInline env.remote.catalog plan.permissions = true) :
    ((RoleResource.Update plan state env).2.trace.filter ApiOp.isReconOp) =
      env.trace.filter ApiOp.isReconOp ++
      (permsOfRole roleID env.remote).map (fun p => ApiOp.deleteRolePermission roleID p.id) ++
      setsCreates env.remote.catalog roleID plan.permissionSets ++
      inlineCreates env.remote.catalog roleID plan.permissions := by
  obtain ⟨-, ht⟩ := RoleResource.Update_nofail_trace plan state env roleID h hid hcond hns hni
  rw [ht]
  simp [List.filter_append, List.filter_cons, ApiOp.isReconOp, deletes_filter_recon,
    setsOps_filter_recon, inlineOps_filter_recon]

/-- A role plan with no permission blocks, for a plain create. -/
def planC3c : RoleResourceModel :=
  { id := .null, name := .value "dev", description := .value "d"
    permissions := [], permissionSets := [] }

/-- A stored role state with id 7 and no permission blocks. -/
def stateC3r : RoleResourceModel :=
  { id := .value "7", name := .null, description := .null
    permissions := [], permissionSets := [] }

/-- An update plan for role 7 renaming it, with no permission blocks. -/
def planC3u : RoleResourceModel :=
  { id := .value "7", name := .value "ops2", description := .value ""
    permissions := [], permissionSets := [] }

/-- A role-permission plan granting `files.read` on server 1 to role 7. -/
def planC3pc : RolePermissionResourceModel :=
  { id := .null, roleID := .value 7, serverID := .value 1
    permissionName := .value "files.read", stackPattern := .null }

/-- The stored state of role 7's permission rule with id 1. -/
def stateC3pr : RolePermissionResourceModel :=
  { id := .value "1", roleID := .value 7, serverID := .value 1
    permissionName := .value "stacks.read", stackPattern := .value "*" }

/-- C3 counterexample: the role-permission resource's Update handler fails
unconditionally.  On a failure-free environment and regardless of any input
it adds the "Update not supported" error, writes no state and issues no
remote operation, contradicting the claim that every lifecycle verb of each
resource performs its remote operation rather than unconditionally
failing. -/
theorem role_permission_update_unsupported :
    (RolePermissionResource.Update env0).1 =
      ⟨[("Update not supported",
         "Role permissions cannot be updated. Please delete and recreate the resource.")],
        none⟩ ∧
    (RolePermissionResource.Update env0).2.trace = [] := by
  decide

/-- C3 (amended): seven of the eight lifecycle handlers perform their remote
operation on valid inputs — shown by concrete failure-free runs of role
Create/Read/Update/Delete and role-permission Create/Read/Delete, each
ending with no diagnostics, a written state and the corresponding operation
in the trace — while the role-permission Update handler unconditionally
fails with "Update not supported" and touches nothing, on every
environment. -/
theorem crud_handlers_perform_remote_ops :
    ((RoleResource.Create planC3c env0).1.diags = [] ∧
     (RoleResource.Create planC3c env0).1.state.isSome = true ∧
     (RoleResource.Create planC3c env0).2.trace = [.createRole "dev" "d"]) ∧
    ((RoleResource.Read stateC3r env0).1.diags = [] ∧
     (RoleResource.Read stateC3r env0).1.state.isSome = true ∧
     (RoleResource.Read stateC3r env0).2.trace = [.listRoles]) ∧
    ((RoleResource.Update planC3u stateC3r env0).1.diags = [] ∧
     (RoleResource.Update planC3u stateC3r env0).1.state.isSome = true ∧
     (RoleResource.Update planC3u stateC3r env0).2.trace = [.updateRole 7 "ops2" ""]) ∧
    ((RoleResource.Delete stateC3r env0).1.diags = [] ∧
     (RoleResource.Delete stateC3r env0).1.state.isSome = true ∧
     (RoleResource.Delete stateC3r env0).2.trace = [.deleteRole 7]) ∧
    ((RolePermissionResource.Create planC3pc env0).1.diags = [] ∧
     (RolePermissionResource.Create planC3pc env0).1.state.isSome = true ∧
     (RolePermissionResource.Create planC3pc env0).2.trace =
       [.listPermissions, .createRolePermission 7 1 3 "*", .listRolePermissions 7]) ∧
    ((RolePermissionResource.Read stateC3pr env0).1.diags = [] ∧
     (RolePermissionResource.Read stateC3pr env0).1.state.isSome = true ∧
     (RolePermissionResource.Read stateC3pr env0).2.trace = [.listRolePermissions 7]) ∧
    ((RolePermissionResource.Delete stateC3pr env0).1.diags = [] ∧
     (RolePermissionResource.Delete stateC3pr env0).1.state.isSome = true ∧
     (RolePermissionResource.Delete stateC3pr env0).2.trace = [.deleteRolePermission 7 1]) ∧
    (∀ env : Env, RolePermissionResource.Update env =
      (⟨[("Update not supported",
          "Role permissions cannot be updated. Please delete and recreate the resource.")],
         none⟩, env)) := by
  refine ⟨by decide, by decide, by decide, by decide, by decide, by decide, by decide,
    fun env => rfl⟩

/-- Witness for C4 at a concrete plan, state and environment. -/
theorem role_update_recon_fixed_order_witness :
    ((RoleResource.Update planC1 planC1 env0).2.trace.filter ApiOp.isReconOp) =
      env0.trace.filter ApiOp.isReconOp ++
      (permsOfRole 7 env0.remote).map (fun p => ApiOp.deleteRolePermission 7 p.id) ++
      setsCreates env0.remote.catalog 7 planC1.permissionSets ++
      inlineCreates env0.remote.catalog 7 planC1.permissions :=
  role_update_recon_fixed_order planC1 planC1 env0 7 rfl (by decide) (by decide)
    (by decide) (by decide)

/-- C5: every client method propagates a transport failure as exactly one
wrapped error and performs no recovery.  When the HTTP call a method is
about to make fails with message `msg`, the method returns the single error
wrapping `msg` with the method's fixed prefix (the three lookup helpers
return the wrapped error of the one list call they make), and the resulting
environment is exactly `bump env op`: one HTTP call consumed, one operation
traced, the remote state untouched — no retry and no fallback. -/
theorem client_errors_single_wrapped (env : Env) (msg : String)
    (h : env.failSet.lookup env.calls = some msg)
    (id roleID permissionID serverID : Nat) (name description stackPattern pname : String) :
    (Client.ListRoles env).1 = .error ("failed to list roles: " ++ msg) ∧
    (Client.ListRoles env).2 = bump env .listRoles ∧
    (Client.GetRole id env).1 = .error ("failed to list roles: " ++ msg) ∧
    (Client.GetRole id env).2 = bump env .listRoles ∧
    (Client.CreateRole name description env).1 = .error ("failed to create role: " ++ msg) ∧
    (Client.CreateRole name description env).2 = bump env (.createRole name description) ∧
    (Client.UpdateRole id name description env).1 =
      .error ("failed to update role: " ++ msg) ∧
    (Client.UpdateRole id name description env).2 =
      bump env (.updateRole id name description) ∧
    (Client.DeleteRole id env).1 = .error ("failed to delete role: " ++ msg) ∧
    (Client.DeleteRole id env).2 = bump env (.deleteRole id) ∧
    (Client.ListRolePermissions roleID env).1 =
      .error ("failed to list role permissions: " ++ msg) ∧
    (Client.ListRolePermissions roleID env).2 = bump env (.listRolePermissions roleID) ∧
    (Client.GetRolePermission roleID permissionID env).1 =
      .error ("failed to list role permissions: " ++ msg) ∧
    (Client.GetRolePermission roleID permissionID env).2 =
      bump env (.listRolePermissions roleID) ∧
    (Client.CreateRolePermission roleID serverID permissionID stackPattern env).1 =
      .error ("failed to create role permission: " ++ msg) ∧
    (Client.CreateRolePermission roleID serverID permissionID stackPattern env).2 =
      bump env (.createRolePermission roleID serverID permissionID stackPattern) ∧
    (Client.DeleteRolePermission roleID permissionID env).1 =
      .error ("failed to delete role permission: " ++ msg) ∧
    (Client.DeleteRolePermission roleID permissionID env).2 =
      bump env (.deleteRolePermission roleID permissionID) ∧
    (Client.ListPermissions env).1 = .error ("failed to list permissions: " ++ msg) ∧
    (Client.ListPermissions env).2 = bump env .listPermissions ∧
    (Client.GetPermissionByName pname env).1 =
      .error ("failed to list permissions: " ++ msg) ∧
    (Client.GetPermissionByName pname env).2 = bump env .listPermissions := by
  have hc : ∀ op : ApiOp, httpCall op env = (.error msg, bump env op) :=
    fun op => httpCall_fail op env msg h
  simp [Client.ListRoles, Client.GetRole, Client.CreateRole, Client.UpdateRole,
    Client.DeleteRole, Client.ListRolePermissions, Client.GetRolePermission,
    Client.CreateRolePermission, Client.DeleteRolePermission, Client.ListPermissions,
    Client.GetPermissionByName, hc]

/-- An environment whose transport fails at the first HTTP call. -/
def envC5 : Env := { remote := remote0, calls := 0, trace := [], failSet := [(0, "boom")] }

/-- Witness for C5 on a concrete failing environment. -/
theorem client_errors_single_wrapped_witness :
    (Client.ListRoles envC5).1 = .error ("failed to list roles: " ++ "boom") ∧
    (Client.ListRoles envC5).2 = bump envC5 .listRoles :=
  ⟨(client_errors_single_wrapped envC5 "boom" (by decide) 0 0 0 0 "" "" "" "").1,
   (client_errors_single_wrapped envC5 "boom" (by decide) 0 0 0 0 "" "" "" "").2.1⟩

/-- C6: errors are mapped to diagnostics.  For every handler of both
resources, on every input and environment, the handler writes a state iff it
added no diagnostic, and it never adds more than one diagnostic (every
error path adds one error and returns immediately, before `State.Set`).
The concrete failing runs show the added diagnostic carries the failing
client call's error message verbatim for each handler. -/
theorem handlers_map_errors_to_diagnostics :
    (∀ (plan : RoleResourceModel) (env : Env),
      ((RoleResource.Create plan env).1.state.isSome = true ↔
        (RoleResource.Create plan env).1.diags = []) ∧
      (RoleResource.Create plan env).1.diags.length ≤ 1) ∧
    (∀ (state : RoleResourceModel) (env : Env),
      ((RoleResource.Read state env).1.state.isSome = true ↔
        (RoleResource.Read state env).1.diags = []) ∧
      (RoleResource.Read state env).1.diags.length ≤ 1) ∧
    (∀ (plan state : RoleResourceModel) (env : Env),
      ((RoleResource.Update plan state env).1.state.isSome = true ↔
        (RoleResource.Update plan state env).1.diags = []) ∧
      (RoleResource.Update plan state env).1.diags.length ≤ 1) ∧
    (∀ (state : RoleResourceModel) (env : Env),
      ((RoleResource.Delete state env).1.state.isSome = true ↔
        (RoleResource.Delete state env).1.diags = []) ∧
      (RoleResource.Delete state env).1.diags.length ≤ 1) ∧
    (∀ (plan : RolePermissionResourceModel) (env : Env),
      ((RolePermissionResource.Create plan env).1.state.isSome = true ↔
        (RolePermissionResource.Create plan env).1.diags = []) ∧
      (RolePermissionResource.Create plan env).1.diags.length ≤ 1) ∧
    (∀ (state : RolePermissionResourceModel) (env : Env),
      ((RolePermissionResource.Read state env).1.state.isSome = true ↔
        (RolePermissionResource.Read state env).1.diags = []) ∧
      (RolePermissionResource.Read state env).1.diags.length ≤ 1) ∧
    (∀ env : Env,
      ((RolePermissionResource.Update env).1.state.isSome = true ↔
        (RolePermissionResource.Update env).1.diags = []) ∧
      (RolePermissionResource.Update env).1.diags.length ≤ 1) ∧
    (∀ (state : RolePermissionResourceModel) (env : Env),
      ((RolePermissionResource.Delete state env).1.state.isSome = true ↔
        (RolePermissionResource.Delete state env).1.diags = []) ∧
      (RolePermissionResource.Delete state env).1.diags.length ≤ 1) ∧
    (RoleResource.Create planC3c envC5).1 =
      ⟨[("Failed to create role", "failed to create role: boom")], none⟩ ∧
    (RoleResource.Read stateC3r envC5).1 =
      ⟨[("Failed to read role", "failed to list roles: boom")], none⟩ ∧
    (RoleResource.Update planC3u stateC3r envC5).1 =
      ⟨[("Failed to update role", "failed to update role: boom")], none⟩ ∧
    (RoleResource.Delete stateC3r envC5).1 =
      ⟨[("Failed to delete role", "failed to delete role: boom")], none⟩ ∧
    (RolePermissionResource.Create planC3pc envC5).1 =
      ⟨[("Failed to find permission", "failed to list permissions: boom")], none⟩ ∧
    (RolePermissionResource.Read stateC3pr envC5).1 =
      ⟨[("Failed to read role permission", "failed to list role permissions: boom")], none⟩ ∧
    (RolePermissionResource.Delete stateC3pr envC5).1 =
      ⟨[("Failed to delete role permission",
         "failed to delete role permission: boom")], none⟩ := by
  refine ⟨?_, ?_, ?_, ?_, ?_, ?_, ?_, ?_, by decide, by decide, by decide, by decide,
    by decide, by decide, by decide⟩
  · intro plan env
    simp only [RoleResource.Create]
    repeat' split
    all_goals simp
  · intro state env
    simp only [RoleResource.Read]
    repeat' split
    all_goals simp
  · intro plan state env
    simp only [RoleResource.Update]
    repeat' split
    all_goals simp
  · intro state env
    simp only [RoleResource.Delete]
    repeat' split
    all_goals simp
  · intro plan env
    simp only [RolePermissionResource.Create]
    repeat' split
    all_goals simp
  · intro state env
    simp only [RolePermissionResource.Read]
    repeat' split
    all_goals simp
  · intro env
    simp [RolePermissionResource.Update]
  · intro state env
    simp only [RolePermissionResource.Delete]
    repeat' split
    all_goals simp

/-- A stored role state whose id string is not a number. -/
def stateC7 : RoleResourceModel :=
  { id := .value "abc", name := .null, description := .null
    permissions := [], permissionSets := [] }

/-- C7 counterexample: handlers do parse text and can fail on it.  Reading a
role whose stored id is "abc" fails with the ParseUint error in an
"Invalid role ID" diagnostic before any remote call (the environment is
returned untouched), and a malformed role-permission import id fails the
role-permission ImportState — contradicting the claim that no operation
parses the stored ID or the import ID and none can fail on a parse error. -/
theorem role_read_fails_on_parse_error :
    (RoleResource.Read stateC7 env0).1 =
      ⟨[("Invalid role ID", "strconv.ParseUint: parsing abc: invalid syntax")],
        none⟩ ∧
    (RoleResource.Read stateC7 env0).2 = env0 ∧
    RolePermissionResource.ImportState "badid" =
      ([("Invalid import ID", "Import ID must be in format 'role_id:permission_id'")],
       none) := by
  decide

/-- C7 (amended): the handlers parse the stored id strings and the import
id.  Role Read/Update/Delete and role-permission Read/Delete run the stored
id through ParseUint and fail with an "Invalid ... ID" diagnostic (and no
remote call) whenever it does not parse; the role-permission import splits
its id on ':' and fails on a wrong part count or an unparsable role part;
only the role resource's import is a parse-free passthrough. -/
theorem handlers_do_parse (s e : String) (env : Env) (state : RoleResourceModel)
    (pst : RolePermissionResourceModel) (h : parseUint64 s = .error e) :
    RoleResource.Read { state with id := .value s } env =
      (⟨[("Invalid role ID", e)], none⟩, env) ∧
    RoleResource.Update { state with id := .value s } state env =
      (⟨[("Invalid role ID", e)], none⟩, env) ∧
    RoleResource.Delete { state with id := .value s } env =
      (⟨[("Invalid role ID", e)], none⟩, env) ∧
    RolePermissionResource.Read { pst with id := .value s } env =
      (⟨[("Invalid permission ID", e)], none⟩, env) ∧
    RolePermissionResource.Delete { pst with id := .value s } env =
      (⟨[("Invalid permission ID", e)], none⟩, env) ∧
    (∀ t : String, (splitColon t).length ≠ 2 →
      RolePermissionResource.ImportState t =
        ([("Invalid import ID", "Import ID must be in format 'role_id:permission_id'")],
         none)) ∧
    (∀ (t p0 p1 e2 : String), splitColon t = [p0, p1] → parseInt64 p0 = .error e2 →
      RolePermissionResource.ImportState t = ([("Invalid role ID", e2)], none)) ∧
    (∀ t : String, RoleResource.ImportState t = ([], some t)) := by
  refine ⟨?_, ?_, ?_, ?_, ?_, ?_, ?_, fun t => rfl⟩
  · simp [RoleResource.Read, TFString.valueString, h]
  · simp [RoleResource.Update, TFString.valueString, h]
  · simp [RoleResource.Delete, TFString.valueString, h]
  · simp [RolePermissionResource.Read, TFString.valueString, h]
  · simp [RolePermissionResource.Delete, TFString.valueString, h]
  · intro t ht
    simp only [RolePermissionResource.ImportState]
    rcases hsp : splitColon t with _ | ⟨p0, _ | ⟨p1, _ | ⟨p2, rest⟩⟩⟩
    · rfl
    · rfl
    · rw [hsp] at ht
      exact absurd rfl ht
    · rfl
  · intro t p0 p1 e2 hsp hpe
    simp only [RolePermissionResource.ImportState, hsp, hpe]

/-- Witness for C7 at the concrete unparsable id "abc". -/
theorem handlers_do_parse_witness :
    RoleResource.Read { stateC3r with id := .value "abc" } env0 =
      (⟨[("Invalid role ID", "strconv.ParseUint: parsing abc: invalid syntax")],
        none⟩, env0) :=
  (handlers_do_parse "abc" "strconv.ParseUint: parsing abc: invalid syntax" env0
    stateC3r stateC3pr (by decide)).1

/-- An update plan whose single permission-set entry has a null pattern. -/
def planC8 : RoleResourceModel :=
  { id := .value "7", name := .value "ops", description := .value ""
    permissions := []
    permissionSets := [{ serverIDs := [.value 1]
                         permissions := [{ name := .value "stacks.read", pattern := .null }] }] }

/-- C8 counterexample: a permission-set entry with a null pattern is created
remotely with stack pattern "*", but that value is never written back into
the resulting state — the state still carries the null pattern. -/
theorem permission_set_pattern_not_written_back :
    ((RoleResource.Update planC8 planC8 env0).2.trace.filter ApiOp.isCreateRP) =
      [.createRolePermission 7 1 1 "*"] ∧
    (RoleResource.Update planC8 planC8 env0).1.state = some planC8 ∧
    planC8.permissionSets =
      [{ serverIDs := [.value 1]
         permissions := [{ name := .value "stacks.read", pattern := .null }] }] := by
  decide

/-- The state the Update run on `planC2` writes. -/
def stateC8w : RoleResourceModel :=
  { id := .value "7", name := .value "ops", description := .value ""
    permissions := [{ id := .value "10", serverID := .value 1
                      permissionName := .value "files.read", stackPattern := .value "*" }]
    permissionSets := [] }

/-- C8 (amended): a null (or unknown) configured pattern always defaults the
created permission's stack pattern to "*", and the "*" is written back into
the resulting state for inline permissions and for the role-permission
resource — but never for permission-set entries: both role handlers copy the
plan's permission_set blocks into the state verbatim, so their null patterns
remain null there. -/
theorem stack_pattern_default_and_write_back :
    (∀ (plan state : RoleResourceModel) (env : Env) (d : RoleResourceModel),
      (RoleResource.Update plan state env).1.state = some d →
      d.permissionSets = plan.permissionSets) ∧
    (∀ (plan : RoleResourceModel) (env : Env) (d : RoleResourceModel),
      (RoleResource.Create plan env).1.state = some d →
      d.permissionSets = plan.permissionSets) ∧
    ((RoleResource.Update planC8 planC8 env0).2.trace.filter ApiOp.isCreateRP =
      [.createRolePermission 7 1 1 "*"]) ∧
    ((RoleResource.Update planC2 planC2 env0).2.trace.filter ApiOp.isCreateRP =
      [.createRolePermission 7 1 3 "*"]) ∧
    (RoleResource.Update planC2 planC2 env0).1.state = some stateC8w ∧
    ((RolePermissionResource.Create planC3pc env0).2.trace.filter ApiOp.isCreateRP =
      [.createRolePermission 7 1 3 "*"]) ∧
    (RolePermissionResource.Create planC3pc env0).1.state =
      some { planC3pc with id := .value "10", stackPattern := .value "*" } := by
  refine ⟨?_, ?_, by decide, by decide, by decide, by decide, by decide⟩
  · intro plan state env d hd
    simp only [RoleResource.Update] at hd
    repeat' split at hd
    all_goals simp_all
    all_goals subst hd
    all_goals rfl
  · intro plan env d hd
    simp only [RoleResource.Create] at hd
    repeat' split at hd
    all_goals simp_all
    all_goals subst hd
    all_goals rfl

/-- Witness for C8: the permission-set frame conjunct applied to the
concrete inline-permission update. -/
theorem stack_pattern_default_and_write_back_witness :
    stateC8w.permissionSets = planC2.permissionSets :=
  stack_pattern_default_and_write_back.1 planC2 planC2 env0 stateC8w (by decide)

theorem ListRoles_ok_inv (env : Env) (roles : List Role) (env1 : Env)
    (h : Client.ListRoles env = (.ok roles, env1)) :
    roles = env.remote.roles ∧ env1 = bump env .listRoles := by
  simp only [Client.ListRoles] at h
  rcases hh : httpCall .listRoles env with ⟨hres, henv⟩
  rw [hh] at h
  have hsnd : henv = bump env .listRoles := by
    have := httpCall_snd .listRoles env
    rw [hh] at this
    exact this
  cases hres with
  | error e => simp at h
  | ok u =>
    simp only [Prod.mk.injEq, Except.ok.injEq] at h
    obtain ⟨h1, h2⟩ := h
    subst h2
    subst hsnd
    exact ⟨h1.symm, rfl⟩

theorem GetRole_ok_inv (id : Nat) (env : Env) (role : Role) (env1 : Env)
    (h : Client.GetRole id env = (.ok role, env1)) :
    env1 = bump env .listRoles ∧
    env.remote.roles.find? (fun r => r.id == id) = some role := by
  simp only [Client.GetRole] at h
  rcases hLR : Client.ListRoles env with ⟨res, envx⟩
  rw [hLR] at h
  cases res with
  | error e => simp at h
  | ok roles =>
    obtain ⟨hroles, henvx⟩ := ListRoles_ok_inv env roles envx hLR
    subst hroles
    simp only [] at h
    rcases hf : env.remote.roles.find? (fun r => r.id == id) with _ | r
    · rw [hf] at h
      simp at h
    · rw [hf] at h
      simp only [Prod.mk.injEq, Except.ok.injEq] at h
      obtain ⟨h1, h2⟩ := h
      subst h1
      subst h2
      exact ⟨henvx, hf⟩

theorem ListRolePermissions_ok_inv (roleID : Nat) (env : Env)
    (perms : List RolePermission) (cat : List Permission) (env1 : Env)
    (h : Client.ListRolePermissions roleID env = (.ok (perms, cat), env1)) :
    perms = permsOfRole roleID env.remote ∧ cat = env.remote.catalog ∧
    env1 = bump env (.listRolePermissions roleID) := by
  simp only [Client.ListRolePermissions] at h
  rcases hh : httpCall (.listRolePermissions roleID) env with ⟨hres, henv⟩
  rw [hh] at h
  have hsnd : henv = bump env (.listRolePermissions roleID) := by
    have := httpCall_snd (.listRolePermissions roleID) env
    rw [hh] at this
    exact this
  cases hres with
  | error e => simp at h
  | ok u =>
    simp only [Prod.mk.injEq, Except.ok.injEq] at h
    obtain ⟨⟨h1, h2⟩, h3⟩ := h
    subst h3
    subst hsnd
    exact ⟨h1.symm, h2.symm, rfl⟩

/-- C9: frame property of the role resource's Read.  On every successful
Read: the permission_set blocks of the written state are exactly those of
the prior state (never refreshed from the remote API), the id is untouched,
the inline permissions are left exactly as stored when the prior state has
none, and are refreshed from the remote listing exactly when the prior state
has at least one; name and description always come from the remote role. -/
theorem role_read_frame (state : RoleResourceModel) (env : Env) (d : RoleResourceModel)
    (h : (RoleResource.Read state env).1.state = some d) :
    d.permissionSets = state.permissionSets ∧
    d.id = state.id ∧
    (state.permissions = [] → d.permissions = state.permissions) ∧
    (∀ roleID, parseUint64 state.id.valueString = .ok roleID →
      (∀ r, env.remote.roles.find? (fun x => x.id == roleID) = some r →
        d.name = .value r.name ∧ d.description = .value r.description) ∧
      (state.permissions ≠ [] →
        d.permissions = (permsOfRole roleID env.remote).map (fun perm =>
          { id := .value (toString perm.id)
            serverID := .value (Int.ofNat perm.serverID)
            permissionName := .value ((((env.remote.catalog.reverse.find?
              (fun p => p.id == perm.permissionID)).map (fun p => p.name))).getD "")
            stackPattern := .value perm.stackPattern }))) := by
  simp only [RoleResource.Read] at h
  rcases hp : parseUint64 state.id.valueString with e | id
  · rw [hp] at h
    simp at h
  · rw [hp] at h
    simp only [] at h
    rcases hg : Client.GetRole id env with ⟨res, env1⟩
    rw [hg] at h
    cases res with
    | error e => simp at h
    | ok role =>
      obtain ⟨henv1, hfind⟩ := GetRole_ok_inv id env role env1 hg
      simp only [] at h
      by_cases hnil : state.permissions = []
      · simp only [hnil, List.length_nil, gt_iff_lt, lt_self_iff_false, if_false] at h
        simp only [Option.some.injEq] at h
        subst h
        refine ⟨rfl, rfl, fun _ => hnil.symm, fun roleID hpid => ?_⟩
        simp only [Except.ok.injEq] at hpid
        subst hpid
        refine ⟨fun r hr => ?_, fun hne => absurd hnil hne⟩
        rw [hfind] at hr
        simp only [Option.some.injEq] at hr
        subst hr
        exact ⟨rfl, rfl⟩
      · have hlen : state.permissions.length > 0 := by
          cases hsp : state.permissions with
          | nil => exact absurd hsp hnil
          | cons a l => simp [hsp]
        simp only [hlen, if_true] at h
        rcases hl : Client.ListRolePermissions id env1 with ⟨res2, env2⟩
        rw [hl] at h
        cases res2 with
        | error e => simp at h
        | ok pair =>
          rcases pair with ⟨perms, cat⟩
          obtain ⟨hperms, hcat, henv2⟩ := ListRolePermissions_ok_inv id env1 perms cat env2 hl
          have hrem : env1.remote = env.remote := by
            rw [henv1]
            simp
          simp only [] at h
          simp only [Option.some.injEq] at h
          subst h
          refine ⟨rfl, rfl, fun hcontra => absurd hcontra hnil, fun roleID hpid => ?_⟩
          simp only [Except.ok.injEq] at hpid
          subst hpid
          refine ⟨fun r hr => ?_, fun _ => ?_⟩
          · rw [hfind] at hr
            simp only [Option.some.injEq] at hr
            subst hr
            exact ⟨rfl, rfl⟩
          · rw [hperms, hcat, hrem]

/-- The stored prior state for the C9 witness: one inline permission and one
permission_set block. -/
def stateC9 : RoleResourceModel :=
  { id := .value "7", name := .null, description := .null
    permissions := [{ id := .value "1", serverID := .value 1
                      permissionName := .value "stacks.read", stackPattern := .value "*" }]
    permissionSets := [{ serverIDs := [.value 1]
                         permissions := [{ name := .value "stacks.read", pattern := .null }] }] }

/-- The state the C9 witness run writes. -/
def dC9 : RoleResourceModel :=
  { id := .value "7", name := .value "ops", description := .value ""
    permissions := [{ id := .value "1", serverID := .value 1
                      permissionName := .value "stacks.read", stackPattern := .value "*" },
                    { id := .value "2", serverID := .value 2
                      permissionName := .value "stacks.read", stackPattern := .value "*" }]
    permissionSets := [{ serverIDs := [.value 1]
                         permissions := [{ name := .value "stacks.read", pattern := .null }] }] }

/-- Witness for C9 at a concrete successful Read with inline permissions. -/
theorem role_read_frame_witness :
    dC9.permissionSets = stateC9.permissionSets ∧
    dC9.permissions = (permsOfRole 7 env0.remote).map (fun perm =>
      { id := .value (toString perm.id)
        serverID := .value (Int.ofNat perm.serverID)
        permissionName := .value ((((env0.remote.catalog.reverse.find?
          (fun p => p.id == perm.permissionID)).map (fun p => p.name))).getD "")
        stackPattern := .value perm.stackPattern }) :=
  ⟨(role_read_frame stateC9 env0 dC9 (by decide)).1,
   ((role_read_frame stateC9 env0 dC9 (by decide)).2.2.2 7 (by decide)).2 (by decide)⟩

/-- An environment on which the server assigns id 0 to the next created
role permission. -/
def envC10 : Env :=
  { remote := { roles := [roleOps], rolePerms := [], catalog := [permStacksRead, permFilesRead]
                nextRoleID := 8, nextRolePermID := 0 }
    calls := 0, trace := [], failSet := [] }

/-- C10: after a successful remote create, the role-permission Create
handler re-lists the role's permissions and searches them for an entry with
the created server id, permission id and stack pattern; it adds the
"Failed to find created permission" diagnostic and writes no state exactly
when the first matching entry's id is 0 (or no entry matches).  In
particular, on `envC10` the permission is genuinely created remotely — the
final remote state holds it, with server-assigned id 0 — yet the handler
reports it as not found. -/
theorem role_permission_create_zero_id_not_found (plan : RolePermissionResourceModel)
    (env : Env) (permission : Permission) (h : env.failSet = [])
    (hname : env.remote.catalog.find? (fun p => p.name == plan.permissionName.valueString) =
      some permission) :
    (((RolePermissionResource.Create plan env).1.diags =
        [("Failed to find created permission",
          "Permission was created but could not be found")] ∧
      (RolePermissionResource.Create plan env).1.state = none) ↔
      (match ((permsOfRole (uintOf plan.roleID.valueInt64) env.remote ++
          [({ id := env.remote.nextRolePermID, serverID := uintOf plan.serverID.valueInt64
              permissionID := permission.id
              stackPattern := if !plan.stackPattern.isNull then plan.stackPattern.valueString
                else "*" } : RolePermission)]).find?
          (fun p => p.serverID == uintOf plan.serverID.valueInt64 &&
                    p.permissionID == permission.id &&
                    p.stackPattern == (if !plan.stackPattern.isNull then
                      plan.stackPattern.valueString else "*"))) with
       | none => True
       | some p => p.id = 0)) ∧
    (RolePermissionResource.Create planC3pc envC10).1 =
      ⟨[("Failed to find created permission",
         "Permission was created but could not be found")], none⟩ ∧
    (RolePermissionResource.Create planC3pc envC10).2.remote.rolePerms =
      [(7, { id := 0, serverID := 1, permissionID := 3, stackPattern := "*" })] := by
  refine ⟨?_, by decide, by decide⟩
  simp only [RolePermissionResource.Create, Client.GetPermissionByName_eq _ _ h, hname]
  simp [Client.CreateRolePermission_nofail, Client.ListRolePermissions_nofail, h, bump,
    permsOfRole, List.filter_append]
  rcases hF : List.find?
      (fun a =>
        decide (a.1 = uintOf plan.roleID.valueInt64) &&
          (decide (a.2.serverID = uintOf plan.serverID.valueInt64) &&
              decide (a.2.permissionID = permission.id) &&
            decide
              (a.2.stackPattern =
                if plan.stackPattern.isNull = false then plan.stackPattern.valueString
                else "*")))
      env.remote.rolePerms with _ | q
  · by_cases h0 : env.remote.nextRolePermID = 0
    · simp [hF, h0]
    · simp [hF, h0]
  · by_cases h0 : q.2.id = 0
    · simp [hF, h0]
    · simp [hF, h0]

/-- Witness for C10: on `envC10` the characterisation's right side holds
(the matching entry's id is 0), so the handler fails with exactly the
"not found" diagnostic and no state. -/
theorem role_permission_create_zero_id_not_found_witness :
    (RolePermissionResource.Create planC3pc envC10).1 =
      ⟨[("Failed to find created permission",
         "Permission was created but could not be found")], none⟩ :=
  (role_permission_create_zero_id_not_found planC3pc envC10 permFilesRead rfl
    (by decide)).2.1

end Berth
